import Mathlib

/-!
Shallow embedding of the Marketing_Creatives repository (Python) for checking
its natural-language specification.

The embedding covers:
* the EasyOCR box extraction (`extract_text_positions`) of the AI-image + OCR
  renderer (Approach-2/Approach-5 family);
* the Phase-4 HTML assembly of that renderer: per-box font sizing, geometry
  buffering/clamping, and the overlay `<div>` emission;
* the responsiveness post-processor (`post_process_llm_html`) of the
  LLM-direct renderer (Approach-1);
* the Creative Schema Mapper, in both its nested-shape variant
  (`creative_spec` column) and its flattened-shape variant (top-level
  columns), over a JSON-like value type that models the Python dynamic
  behaviour (`.get` on a non-dict raises AttributeError, iteration over a
  non-iterable raises TypeError, and so on);
* the CTA-matching box rendering, which is described by the specification
  for the most advanced renderer variant; that variant's code is not part
  of the sources, so it is modelled from the spec and marked as such.

Python floats are modelled as exact rationals (ℚ); Python ints as ℤ.
Python strings are Lean strings (sequences of unicode code points).
-/

namespace MarketingCreatives

/-- Python whitespace (the characters matched by `str.strip()` and by `\s`
in the regular expressions of the source, restricted to ASCII). -/
def pyIsSpace (c : Char) : Bool :=
  c = ' ' || c = '\t' || c = '\n' || c = '\r' || c = '\x0b' || c = '\x0c'

/-- Python `str.strip()`: drop leading and trailing whitespace. -/
def pyStrip (s : String) : String :=
  String.mk (((s.data.dropWhile pyIsSpace).reverse.dropWhile pyIsSpace).reverse)

/-- Python substring containment `pat in s` on character lists. -/
def containsSub (s pat : List Char) : Bool :=
  pat.isPrefixOf s ||
    match s with
    | [] => false
    | _ :: t => containsSub t pat

/-- Python `max(a, b)` on numbers (returns the first argument on ties). -/
def pyMaxQ (a b : ℚ) : ℚ := if b ≤ a then a else b

/-- Python `min(a, b)` on numbers (returns the first argument on ties). -/
def pyMinQ (a b : ℚ) : ℚ := if a ≤ b then a else b

/-- Python `max(a, b)` on integers. -/
def pyMaxZ (a b : ℤ) : ℤ := if b ≤ a then a else b

/-- Python `min(a, b)` on integers. -/
def pyMinZ (a b : ℤ) : ℤ := if a ≤ b then a else b

/-! ## Phase 3: EasyOCR text-box extraction (`extract_text_positions`) -/

/-- One raw EasyOCR detection: a quadrilateral bounding box (four corner
points in pixel coordinates), the recognized text, and a confidence score. -/
structure RawDetection where
  c1 : ℤ × ℤ
  c2 : ℤ × ℤ
  c3 : ℤ × ℤ
  c4 : ℤ × ℤ
  text : String
  conf : ℚ
deriving DecidableEq

/-- A retained OCR text box, as built by `extract_text_positions`. -/
structure OCRBox where
  text : String
  x : ℤ
  y : ℤ
  width : ℤ
  height : ℤ
  conf : ℚ
deriving DecidableEq

/-- The filtering and box-reduction step applied to one raw detection inside
the loop of `extract_text_positions`: the quadrilateral is reduced to its
axis-aligned bounding rectangle, and the detection is retained only when
`conf > 0.6` and the stripped text is non-empty. -/
def reduceDetection? (d : RawDetection) : Option OCRBox :=
  let xmin := pyMinZ (pyMinZ d.c1.1 d.c2.1) (pyMinZ d.c3.1 d.c4.1)
  let ymin := pyMinZ (pyMinZ d.c1.2 d.c2.2) (pyMinZ d.c3.2 d.c4.2)
  let xmax := pyMaxZ (pyMaxZ d.c1.1 d.c2.1) (pyMaxZ d.c3.1 d.c4.1)
  let ymax := pyMaxZ (pyMaxZ d.c1.2 d.c2.2) (pyMaxZ d.c3.2 d.c4.2)
  if d.conf > 0.6 ∧ pyStrip d.text ≠ "" then
    some { text := pyStrip d.text, x := xmin, y := ymin,
           width := xmax - xmin, height := ymax - ymin, conf := d.conf }
  else
    none

/-- The sort key comparison used by `ocr_boxes.sort(key=lambda b: (b['y'], b['x']))`:
lexicographic order on the pair `(y, x)`. -/
def boxKeyLe (a b : OCRBox) : Bool :=
  decide (a.y < b.y ∨ (a.y = b.y ∧ a.x ≤ b.x))

/-- Embedding of `extract_text_positions`: filter and reduce each raw EasyOCR
detection, then sort the retained boxes by `(y, x)` ascending. -/
def extract_text_positions (results : List RawDetection) : List OCRBox :=
  let ocr_boxes := results.foldl
    (fun acc d =>
      match reduceDetection? d with
      | some b => acc ++ [b]
      | none => acc) []
  ocr_boxes.mergeSort boxKeyLe

/-! ## Phase 4: per-box font sizing -/

/-- The unclamped per-box font size computed in the Phase-4 loop of
`generate_html_with_ocr_layout` (identical in every renderer variant).
`height` and `width` are the OCR box dimensions, `textLen` is `len(text)`. -/
def fontSizeUnclamped (height width : ℤ) (textLen : ℕ) : ℚ :=
  let base_font_size : ℚ := (height : ℚ) * 0.9
  let estimated_chars_per_line : ℚ :=
    if base_font_size * 0.6 > 0 then (width : ℚ) / (base_font_size * 0.6)
    else (textLen : ℚ)
  if (textLen : ℚ) > estimated_chars_per_line * 1.2 ∧ estimated_chars_per_line > 0 then
    let scaling_factor : ℚ :=
      if (textLen : ℚ) * base_font_size * 0.6 > 0 then
        (width : ℚ) / ((textLen : ℚ) * base_font_size * 0.6)
      else 1
    base_font_size * scaling_factor * 0.9
  else
    base_font_size

/-- The emitted per-box font size: `font_size = max(10, min(80, font_size))`. -/
def fontSize (height width : ℤ) (textLen : ℕ) : ℚ :=
  pyMaxQ 10 (pyMinQ 80 (fontSizeUnclamped height width textLen))

/-- Written from the specification's words (for comparison with the code):
"base = h * 0.9; est_chars = w / (base * 0.6) (or len(t) if that denominator
is 0); if len(t) > est_chars * 1.2 and est_chars > 0 then
font = base * (w / (len(t) * base * 0.6)) * 0.9 (factor 1 if that denominator
is 0), else font = base". -/
def specFontSizeUnclamped (height width : ℤ) (textLen : ℕ) : ℚ :=
  let base : ℚ := (height : ℚ) * 0.9
  let est : ℚ :=
    if base * 0.6 = 0 then (textLen : ℚ) else (width : ℚ) / (base * 0.6)
  if (textLen : ℚ) > est * 1.2 ∧ est > 0 then
    base * (if (textLen : ℚ) * base * 0.6 = 0 then 1
            else (width : ℚ) / ((textLen : ℚ) * base * 0.6)) * 0.9
  else
    base

/-- Written from the specification's words: the font size clamped into the
closed interval `[10, 80]`. -/
def specFontSize (height width : ℤ) (textLen : ℕ) : ℚ :=
  pyMaxQ 10 (pyMinQ 80 (specFontSizeUnclamped height width textLen))

/-! ## Phase 4: per-box overlay geometry -/

/-- The emitted geometry of one overlay box. -/
structure OverlayGeom where
  left : ℤ
  top : ℤ
  width : ℤ
  height : ℤ
deriving DecidableEq

/-- The per-box geometry buffering and clamping of the Phase-4 loop:
buffers of 10px (horizontal) and 8px (vertical), minimum size 20px, and
clamping against the container's right and bottom edges. -/
def overlayGeom (b : OCRBox) (creative_width creative_height : ℤ) : OverlayGeom :=
  let html_box_buffer_x : ℤ := 10
  let html_box_buffer_y : ℤ := 8
  let left_pos := pyMaxZ 0 (b.x - html_box_buffer_x / 2)
  let top_pos := pyMaxZ 0 (b.y - html_box_buffer_y / 2)
  let width_val := pyMaxZ 20 (b.width + html_box_buffer_x)
  let height_val := pyMaxZ 20 (b.height + html_box_buffer_y)
  let width_val := pyMinZ width_val (creative_width - left_pos)
  let height_val := pyMinZ height_val (creative_height - top_pos)
  { left := left_pos, top := top_pos, width := width_val, height := height_val }

/-! ## Phase 4: overlay `<div>` emission -/

/-- Decimal rendering of the rational font-size value, standing in for
Python's float-to-string conversion (exact rational display; the numeric
value is identical, only the textual rendering of non-integral values
differs from CPython's float repr). -/
def ratPyStr (q : ℚ) : String :=
  if q.den = 1 then toString q.num else toString q

/-- The inline style string emitted for one OCR box in the Phase-4 loop. -/
def overlayStyle (b : OCRBox) (cw ch : ℤ) : String :=
  let g := overlayGeom b cw ch
  "left: " ++ toString g.left ++ "px; top: " ++ toString g.top ++ "px; " ++
  "width: " ++ toString g.width ++ "px; height: " ++ toString g.height ++ "px; " ++
  "font-size: " ++ ratPyStr (fontSize b.height b.width b.text.length) ++ "px;"

/-- The overlay element emitted for one OCR box: the recognized text is
interpolated verbatim into the `<div>`, with no HTML escaping. -/
def overlayDiv (b : OCRBox) (cw ch : ℤ) : String :=
  "        <div class=\"overlay-text\" style=\"" ++ overlayStyle b cw ch ++ "\">" ++
  b.text ++ "</div>\n"

/-- The fixed document header emitted by `generate_html_with_ocr_layout`
(up to and including the background `<img>` element). -/
def phase4Header (bgUrl : String) (cw ch : ℤ) : String :=
  "<!DOCTYPE html>\n<html>\n<head>\n    <title>Marketing Creative</title>\n    <style>\n" ++
  "        body \x7b\n            margin: 0;\n            display: flex;\n" ++
  "            justify-content: center;\n            align-items: center;\n" ++
  "            min-height: 100vh;\n            background-color: #f0f0f0;\n" ++
  "            font-family: Arial, sans-serif;\n        \x7d\n" ++
  "        .creative-container \x7b\n            position: relative;\n" ++
  "            width: " ++ toString cw ++ "px;\n            height: " ++ toString ch ++ "px;\n" ++
  "            overflow: hidden;\n            box-shadow: 0 4px 8px rgba(0,0,0,0.2);\n" ++
  "            border-radius: 8px;\n            background-color: #ffffff;\n        \x7d\n" ++
  "        .creative-image \x7b\n            position: absolute;\n            width: 100%;\n" ++
  "            height: 100%;\n            object-fit: cover;\n            top: 0;\n" ++
  "            left: 0;\n        \x7d\n" ++
  "        .overlay-text \x7b\n            position: absolute;\n            font-weight: bold;\n" ++
  "            color: #000000;\n            background: rgba(255, 255, 255, 0.7);\n" ++
  "            padding: 2px 5px;\n            border-radius: 3px;\n" ++
  "            text-shadow: 1px 1px 2px rgba(0,0,0,0.3);\n            box-sizing: border-box;\n" ++
  "            display: flex;\n            align-items: center;\n" ++
  "            justify-content: center;\n            text-align: center;\n" ++
  "            word-wrap: break-word;\n            overflow-wrap: break-word;\n" ++
  "            white-space: normal;\n            line-height: 1.2;\n" ++
  "            cursor: default;\n        \x7d\n    </style>\n</head>\n<body>\n" ++
  "    <div class=\"creative-container\">\n" ++
  "        <img class=\"creative-image\" src=\"" ++ bgUrl ++ "\" alt=\"Creative Background\">\n"

/-- Concatenation of the overlay `<div>` lines of the Phase-4 loop, in box
order. -/
def concatDivs (ocr_boxes : List OCRBox) (cw ch : ℤ) : String :=
  match ocr_boxes with
  | [] => ""
  | b :: t => overlayDiv b cw ch ++ concatDivs t cw ch

/-- Embedding of the Phase-4 HTML assembly: header, one overlay `<div>` per
retained OCR box, and the closing tags. -/
def generate_html_with_ocr_layout (bgUrl : String) (ocr_boxes : List OCRBox)
    (cw ch : ℤ) : String :=
  phase4Header bgUrl cw ch ++ concatDivs ocr_boxes cw ch ++
  "    </div>\n</body>\n</html>"

/-! ## Responsiveness post-processor (`post_process_llm_html`, Approach-1) -/

/-- Python error kinds surfaced by the scripts, as distinguished by the CLI
entry points' `except` clauses. -/
inductive PyErr where
  | fileNotFoundError
  | valueError
  | attributeError
  | typeError
  | nameError
deriving DecidableEq

/-- The error label printed by the CLI entry points: `except ValueError`
prints a "Data Error", `except FileNotFoundError` prints "Error", and the
bare `except Exception` prints "An unexpected error occurred". -/
def cliErrorLabel (e : PyErr) : String :=
  match e with
  | .valueError => "Data Error"
  | .fileNotFoundError => "Error"
  | _ => "An unexpected error occurred"

/-- Numeric value of a list of decimal digit characters. -/
def digitsVal (ds : List Char) : ℕ :=
  ds.foldl (fun a c => a * 10 + (c.toNat - 48)) 0

/-- Value of a decimal literal with integer part `ds` and fractional part `fs`
(matching the regex group `\d+(\.\d+)?`), as an exact fraction
`numerator / denominator` with `denominator = 10 ^ |fs|` (Python parses the
group with `float(...)`; the fraction carries the same value exactly). -/
def parseDecimal (ds fs : List Char) : ℤ × ℤ :=
  ((digitsVal (ds ++ fs) : ℤ), (10 : ℤ) ^ fs.length)

/-- Drop the prefix `p` from `s`, or fail. -/
def stripPfx (p s : List Char) : Option (List Char) :=
  if p.isPrefixOf s then some (s.drop p.length) else none

/-- Try to match the regex `PROP:\s*(\d+(\.\d+)?)\s*px;` at the start of `s`,
where `prop` is the characters of `PROP:`. On success return the captured
numeric value and the remainder of `s` after the match. -/
def tryMatchPx (prop : List Char) (s : List Char) : Option ((ℤ × ℤ) × List Char) :=
  match stripPfx prop s with
  | none => none
  | some s1 =>
    let s2 := s1.dropWhile pyIsSpace
    let ds := s2.takeWhile Char.isDigit
    let s3 := s2.dropWhile Char.isDigit
    if ds.isEmpty then none
    else
      let fsr : List Char × List Char :=
        match s3 with
        | '.' :: t =>
          let f := t.takeWhile Char.isDigit
          if f.isEmpty then ([], s3) else (f, t.dropWhile Char.isDigit)
        | _ => ([], s3)
      let s5 := fsr.2.dropWhile pyIsSpace
      match stripPfx [ 'p', 'x', ';' ] s5 with
      | none => none
      | some s6 => some (parseDecimal ds fsr.1, s6)

/-- Model of `re.search(rf"PROP:\s*(\d+(\.\d+)?)\s*px;", s)`: the value of the
first match, scanning left to right. -/
def searchPx (prop : List Char) : List Char → Option (ℤ × ℤ)
  | [] =>
    match tryMatchPx prop [] with
    | some r => some r.1
    | none => none
  | c :: t =>
    match tryMatchPx prop (c :: t) with
    | some r => some r.1
    | none => searchPx prop t

/-- Model of `re.sub(rf"PROP:\s*\d+(\.\d+)?\s*px;", "", s)`: remove every
non-overlapping match, scanning left to right. `fuel` bounds the recursion
(the input's length always suffices, since every step consumes a character). -/
def removePxGo (prop : List Char) : ℕ → List Char → List Char
  | 0, s => s
  | fuel + 1, s =>
    match tryMatchPx prop s with
    | some r => removePxGo prop fuel r.2
    | none =>
      match s with
      | [] => []
      | c :: t => c :: removePxGo prop fuel t

/-- Remove every `PROP: <n>px;` declaration from `s`. -/
def removePx (prop : List Char) (s : List Char) : List Char :=
  removePxGo prop s.length s

/-- Rendering of the non-negative fraction `num / den` with exactly four
decimal places, rounding to nearest (standing in for CPython's `"%.4f"`
formatting of the corresponding binary float). -/
def fmt4 (num den : ℤ) : String :=
  let n : ℤ := (2 * num * 10000 + den) / (2 * den)
  let whole := n / 10000
  let frac := (n % 10000).toNat
  let fs := toString frac
  toString whole ++ "." ++ String.mk (List.replicate (4 - fs.length) '0') ++ fs

/-- Embedding of the inner function `replace_px_to_percent` restricted to its
style-string transformation: each pixel `left`/`top`/`width`/`height`
declaration becomes a percentage declaration (of the original width for
`left`/`width`, of the original height for `top`/`height`), a pixel
`font-size` becomes a `vw` declaration, each formatted with `"%.4f"`; the
processed declarations (in the order left, top, width, height, font-size,
each keeping its trailing semicolon) and the remaining declarations are then
joined with `"; "` and stripped. -/
def convertStyle (style_str : String) (original_width original_height : ℤ) : String :=
  let step := fun (st : List String × List Char) (prop : String) =>
    match searchPx (prop ++ ":").data st.2 with
    | some px_val =>
      let dim : ℤ := if prop = "left" ∨ prop = "width" then original_width
        else original_height
      (st.1 ++ [prop ++ ": " ++ fmt4 (px_val.1 * 100) (px_val.2 * dim) ++ "%;"],
        removePx (prop ++ ":").data st.2)
    | none => st
  let st := [ "left", "top", "width", "height" ].foldl step ([], style_str.data)
  let st :=
    match searchPx "font-size:".data st.2 with
    | some px_val =>
      (st.1 ++ [ "font-size: " ++
          fmt4 (px_val.1 * 100) (px_val.2 * original_width) ++ "vw;" ],
        removePx "font-size:".data st.2)
    | none => st
  let remaining := ((st.2.splitOn ';').map (fun p => pyStrip (String.mk p))).filter
    (fun p => p ≠ "")
  pyStrip (String.intercalate "; " (st.1 ++ remaining))

/-- Try to match the regex
`(class="[^"]*(?:overlay-text|cta-button)[^"]*")\s+style="([^"]*)"` at the
start of `s`. On success return the class-attribute content, the
style-attribute content, and the remainder after the match. -/
def tryMatchElem (s : List Char) : Option (List Char × List Char × List Char) :=
  match stripPfx "class=\"".data s with
  | none => none
  | some s1 =>
    let cls := s1.takeWhile (fun c => c ≠ '"')
    match s1.dropWhile (fun c => c ≠ '"') with
    | '"' :: s3 =>
      if containsSub cls "overlay-text".data || containsSub cls "cta-button".data then
        let ws := s3.takeWhile pyIsSpace
        if ws.isEmpty then none
        else
          match stripPfx "style=\"".data (s3.dropWhile pyIsSpace) with
          | none => none
          | some s5 =>
            let sty := s5.takeWhile (fun c => c ≠ '"')
            match s5.dropWhile (fun c => c ≠ '"') with
            | '"' :: s7 => some (cls, sty, s7)
            | _ => none
      else none
    | _ => none

/-- Model of the `re.sub` pass over the HTML that rewrites the inline style of
every element whose class attribute contains `overlay-text` or `cta-button`:
each match is replaced by `{class attribute} style="{converted style}"`. -/
def rewriteOverlayGo (ow oh : ℤ) : ℕ → List Char → List Char
  | 0, s => s
  | fuel + 1, s =>
    match tryMatchElem s with
    | some r =>
      "class=\"".data ++ r.1 ++ [ '"' ] ++ " style=\"".data ++
        (convertStyle (String.mk r.2.1) ow oh).data ++ [ '"' ] ++
        rewriteOverlayGo ow oh fuel r.2.2
    | none =>
      match s with
      | [] => []
      | c :: t => c :: rewriteOverlayGo ow oh fuel t

/-- The element-rewriting pass (step 2 of `post_process_llm_html`). -/
def rewriteOverlay (html : String) (ow oh : ℤ) : String :=
  String.mk (rewriteOverlayGo ow oh html.data.length html.data)

/-! ## Digit strings and scanner-evaluation apparatus (post-processor) -/

/-- The ten decimal digit characters. -/
def decimalDigits : List Char := ['0', '1', '2', '3', '4', '5', '6', '7', '8', '9']

/-- The decimal digit character with value `i`. -/
def digitChar (i : Fin 10) : Char := Char.ofNat (48 + i.val)

/-- An arbitrary non-empty decimal digit string: the digit `a` followed by the
digits `d`. Every non-empty string of digit characters arises this way. -/
def digitStr (a : Fin 10) (d : List (Fin 10)) : List Char :=
  digitChar a :: d.map digitChar

/-- No suffix of `s` starts a `PROP: <n>px;` match. -/
def NoPxMatch (prop s : List Char) : Prop :=
  ∀ t, t <:+ s → tryMatchPx prop t = none

/-- The body of the per-property loop of `replace_px_to_percent`. -/
def c5Step (ow oh : ℤ) (st : List String × List Char) (prop : String) :
    List String × List Char :=
  match searchPx (prop ++ ":").data st.2 with
  | some px_val =>
    let dim : ℤ := if prop = "left" ∨ prop = "width" then ow else oh
    (st.1 ++ [prop ++ ": " ++ fmt4 (px_val.1 * 100) (px_val.2 * dim) ++ "%;"],
      removePx (prop ++ ":").data st.2)
  | none => st

/-- The tail of `replace_px_to_percent` after the four-property loop. -/
def c5Post (ow : ℤ) (st : List String × List Char) : String :=
  let st2 :=
    match searchPx "font-size:".data st.2 with
    | some px_val =>
      (st.1 ++ [ "font-size: " ++ fmt4 (px_val.1 * 100) (px_val.2 * ow) ++ "vw;" ],
        removePx "font-size:".data st.2)
    | none => st
  let remaining := ((st2.2.splitOn ';').map (fun p => pyStrip (String.mk p))).filter
    (fun p => p ≠ "")
  pyStrip (String.intercalate "; " (st2.1 ++ remaining))

/-- No suffix of `s` starts an overlay/CTA element match. -/
def NoElemMatch (s : List Char) : Prop :=
  ∀ t, t <:+ s → tryMatchElem t = none

/-- Split `s` at the first occurrence of `pat`: returns the part before the
occurrence and the part after it. -/
def splitAtSub (s pat : List Char) : Option (List Char × List Char) :=
  if pat.isPrefixOf s then some ([], s.drop pat.length)
  else
    match s with
    | [] => none
    | c :: t =>
      match splitAtSub t pat with
      | some r => some (c :: r.1, r.2)
      | none => none

/-- The replacement CSS for `.creative-container` built by
`post_process_llm_html` (an f-string embedding the original dimensions). -/
def creativeContainerCss (original_width original_height : ℤ) : String :=
  "\n        .creative-container \x7b\n            position: relative;\n" ++
  "            width: 100%; /* Make it fill the iframe's width */\n" ++
  "            padding-bottom: calc(100% * (" ++ toString original_height ++ " / " ++
  toString original_width ++ ")); /* Maintain aspect ratio dynamically */\n" ++
  "            overflow: hidden;\n            box-shadow: 0 4px 8px rgba(0,0,0,0.2);\n" ++
  "            border-radius: 8px;\n            background-color: #ffffff;\n" ++
  "            transform-origin: top left;\n        \x7d\n        "

/-- The replacement CSS for `.creative-image` built by
`post_process_llm_html`. -/
def creativeImageCss : String :=
  "\n        .creative-image \x7b\n            position: absolute;\n" ++
  "            width: 100%;\n            height: 100%;\n" ++
  "            object-fit: contain; /* Changed from 'cover' to 'contain' */\n" ++
  "            top: 0;\n            left: 0;\n        \x7d\n        "

/-- Try to match the regex `CLS\s*\{[^}]*\}` at the start of `s`, where `cls`
is the literal class-selector text; on success return the remainder. -/
def tryMatchRule (cls : List Char) (s : List Char) : Option (List Char) :=
  match stripPfx cls s with
  | none => none
  | some s1 =>
    match s1.dropWhile pyIsSpace with
    | '\x7b' :: s3 =>
      match (s3.dropWhile (fun c => c ≠ '\x7d')) with
      | '\x7d' :: s5 => some s5
      | _ => none
    | _ => none

/-- Model of `re.sub(r"CLS\s*\{[^}]*\}", repl, s)`: replace every
non-overlapping match. -/
def subRuleGo (cls repl : List Char) : ℕ → List Char → List Char
  | 0, s => s
  | fuel + 1, s =>
    match tryMatchRule cls s with
    | some rest => repl ++ subRuleGo cls repl fuel rest
    | none =>
      match s with
      | [] => []
      | c :: t => c :: subRuleGo cls repl fuel t

/-- Replace every `CLS { ... }` rule in `s` by `repl`. -/
def subRule (cls repl s : String) : String :=
  String.mk (subRuleGo cls.data repl.data s.data.length s.data)

/-- Step 1 of `post_process_llm_html`: locate the `<style>` block, replace or
append the `.creative-container` and `.creative-image` rules, and substitute
the rewritten block back into the document. When no style block exists the
source's else-branch reads a local variable that was never assigned, raising
an UnboundLocalError (modelled as `nameError`). -/
def stylePass (html : String) (original_width original_height : ℤ) : Except PyErr String :=
  match splitAtSub html.data "<style>".data with
  | none => .error .nameError
  | some pre_rest =>
    match splitAtSub pre_rest.2 "</style>".data with
    | none => .error .nameError
    | some inner_post =>
      let current_styles := String.mk inner_post.1
      let container_css := creativeContainerCss original_width original_height
      let current_styles :=
        if containsSub current_styles.data ".creative-container".data then
          subRule ".creative-container" (pyStrip container_css) current_styles
        else current_styles ++ container_css
      let current_styles :=
        if containsSub current_styles.data ".creative-image".data then
          subRule ".creative-image" (pyStrip creativeImageCss) current_styles
        else current_styles ++ creativeImageCss
      let old_block := "<style>" ++ String.mk inner_post.1 ++ "</style>"
      .ok (html.replace old_block ("<style>" ++ current_styles ++ "</style>"))

/-- Embedding of `post_process_llm_html`: the non-positive-dimension guard
returns the input unchanged; otherwise the style-block pass runs, followed by
the overlay/CTA element-rewriting pass. -/
def post_process_llm_html (llm_generated_html : String)
    (original_width original_height : ℤ) : Except PyErr String :=
  if original_width ≤ 0 ∨ original_height ≤ 0 then .ok llm_generated_html
  else
    match stylePass llm_generated_html original_width original_height with
    | .error e => .error e
    | .ok h => .ok (rewriteOverlay h original_width original_height)

/-! ## Creative Schema Mapper -/

/-- JSON-like values, modelling the Python objects held in a raw creative
row. Object fields keep their insertion order, as Python dicts do. -/
inductive JValue where
  | null
  | bool (b : Bool)
  | int (n : ℤ)
  | str (s : String)
  | arr (items : List JValue)
  | obj (fields : List (String × JValue))

/-- Python `isinstance(v, list)`. -/
def JValue.isArr : JValue → Bool
  | .arr _ => true
  | _ => false

/-- Python `isinstance(v, dict)`. -/
def JValue.isObj : JValue → Bool
  | .obj _ => true
  | _ => false

/-- Python truthiness of a value. -/
def JValue.pyTruthy : JValue → Bool
  | .null => false
  | .bool b => b
  | .int n => decide (n ≠ 0)
  | .str s => decide (s ≠ "")
  | .arr l => !l.isEmpty
  | .obj fs => !fs.isEmpty

/-- First binding of key `k` in an object's field list. -/
def jlookup (fields : List (String × JValue)) (k : String) : Option JValue :=
  (fields.find? (fun p => p.1 == k)).map Prod.snd

/-- Python `d.get(k, default)` on a dict. -/
def dictGetD (fields : List (String × JValue)) (k : String) (dflt : JValue) : JValue :=
  (jlookup fields k).getD dflt

/-- Python `v.get(k, default)` on an arbitrary value: an AttributeError is
raised when `v` is not a dict. -/
def pyGetD (v : JValue) (k : String) (dflt : JValue) : Except PyErr JValue :=
  match v with
  | .obj fs => .ok (dictGetD fs k dflt)
  | _ => .error .attributeError

/-- Python iteration `for x in v`: lists yield their elements, dicts their
keys, strings their characters; other values raise a TypeError. -/
def pyIter : JValue → Except PyErr (List JValue)
  | .arr l => .ok l
  | .obj fs => .ok (fs.map (fun p => JValue.str p.1))
  | .str s => .ok (s.data.map (fun c => JValue.str (String.mk [ c ])))
  | _ => .error .typeError

/-- A syntactically valid JSON string literal body character sequence:
everything up to the next unescaped quote. Used by the JSON parser below. -/
def jsonStringChars : ℕ → List Char → Option (List Char × List Char)
  | 0, _ => none
  | _ + 1, [] => none
  | fuel + 1, c :: t =>
    if c = '"' then some ([], t)
    else if c = '\\' then
      match t with
      | [] => none
      | e :: t2 =>
        let dec : Option Char :=
          if e = 'n' then some '\n'
          else if e = 't' then some '\t'
          else if e = 'r' then some '\r'
          else if e = 'b' then some '\x08'
          else if e = 'f' then some '\x0c'
          else if e = '"' ∨ e = '\\' ∨ e = '/' then some e
          else none
        match dec with
        | none => none
        | some d =>
          match jsonStringChars fuel t2 with
          | some r => some (d :: r.1, r.2)
          | none => none
    else
      match jsonStringChars fuel t with
      | some r => some (c :: r.1, r.2)
      | none => none

/-- Recursive-descent JSON value parser (models `json.loads`; `\uXXXX`
string escapes and exponent notation are not needed by any theorem and are
rejected, which only makes the parse fall back to the field default). -/
def jsonValue : ℕ → List Char → Option (JValue × List Char)
  | 0, _ => none
  | fuel + 1, s =>
    let s := s.dropWhile pyIsSpace
    if "null".data.isPrefixOf s then some (.null, s.drop 4)
    else if "true".data.isPrefixOf s then some (.bool true, s.drop 4)
    else if "false".data.isPrefixOf s then some (.bool false, s.drop 5)
    else
      match s with
      | '"' :: t =>
        match jsonStringChars fuel t with
        | some r => some (.str (String.mk r.1), r.2)
        | none => none
      | '[' :: t =>
        let t := t.dropWhile pyIsSpace
        (match t with
         | ']' :: t2 => some (.arr [], t2)
         | _ =>
           match jsonValue fuel t with
           | none => none
           | some r =>
             match jsonItems fuel r.2 with
             | some rs => some (.arr (r.1 :: rs.1), rs.2)
             | none => none)
      | '\x7b' :: t =>
        let t := t.dropWhile pyIsSpace
        (match t with
         | '\x7d' :: t2 => some (.obj [], t2)
         | _ =>
           match jsonField fuel t with
           | none => none
           | some r =>
             match jsonFields fuel r.2 with
             | some rs => some (.obj (r.1 :: rs.1), rs.2)
             | none => none)
      | '-' :: t =>
        (match jsonNumber t with
         | some r => some (numNeg r.1, r.2)
         | none => none)
      | _ =>
        match jsonNumber s with
        | some r => some (r.1, r.2)
        | none => none
where
  /-- Non-negative JSON number: digits with an optional fraction. -/
  jsonNumber (s : List Char) : Option (JValue × List Char) :=
    let ds := s.takeWhile Char.isDigit
    let s1 := s.dropWhile Char.isDigit
    if ds.isEmpty then none
    else
      match s1 with
      | '.' :: t =>
        let f := t.takeWhile Char.isDigit
        if f.isEmpty then none
        else some (.int (digitsVal ds), t.dropWhile Char.isDigit)
      | _ => some (.int (digitsVal ds), s1)
  /-- Negation of a parsed number. -/
  numNeg : JValue → JValue
    | .int n => .int (-n)
    | v => v
  /-- Remaining `, value` items of an array, up to `]`. -/
  jsonItems : ℕ → List Char → Option (List JValue × List Char)
    | 0, _ => none
    | fuel + 1, s =>
      match s.dropWhile pyIsSpace with
      | ']' :: t => some ([], t)
      | ',' :: t =>
        (match jsonValue fuel t with
         | none => none
         | some r =>
           match jsonItems fuel r.2 with
           | some rs => some (r.1 :: rs.1, rs.2)
           | none => none)
      | _ => none
  /-- One `"key": value` field of an object. -/
  jsonField : ℕ → List Char → Option ((String × JValue) × List Char)
    | 0, _ => none
    | fuel + 1, s =>
      match s.dropWhile pyIsSpace with
      | '"' :: t =>
        (match jsonStringChars fuel t with
         | none => none
         | some k =>
           match k.2.dropWhile pyIsSpace with
           | ':' :: t2 =>
             (match jsonValue fuel t2 with
              | none => none
              | some v => some ((String.mk k.1, v.1), v.2))
           | _ => none)
      | _ => none
  /-- Remaining `, "key": value` fields of an object, up to `}`. -/
  jsonFields : ℕ → List Char → Option (List (String × JValue) × List Char)
    | 0, _ => none
    | fuel + 1, s =>
      match s.dropWhile pyIsSpace with
      | '\x7d' :: t => some ([], t)
      | ',' :: t =>
        (match jsonField fuel t with
         | none => none
         | some r =>
           match jsonFields fuel r.2 with
           | some rs => some (r.1 :: rs.1, rs.2)
           | none => none)
      | _ => none

/-- Model of `json.loads`: the whole input (modulo surrounding whitespace)
must parse as one JSON value. -/
def jsonLoads (s : String) : Option JValue :=
  match jsonValue (s.data.length + 1) s.data with
  | some r => if r.2.dropWhile pyIsSpace = [] then some r.1 else none
  | none => none

/-- The `safe_get_field` helper of the flattened-shape mappers: a string
value is parsed as JSON (a parse failure, or a parse to `null`, falls back to
the default); an absent or `None` value falls back to the default; any other
value is used as is. -/
def safe_get_field (fields : List (String × JValue)) (field_name : String)
    (default_value : JValue) : JValue :=
  match (jlookup fields field_name).getD .null with
  | .str s =>
    (match jsonLoads s with
     | some parsed =>
       match parsed with
       | .null => default_value
       | v => v
     | none => default_value)
  | .null => default_value
  | v => v

/-- The `safe_get_field` helper applied to an arbitrary value as its
`data_dict` argument (as the flattened Approach-1 mapper does for the
`background` column): `.get` on a non-dict raises an AttributeError. -/
def safeGetFieldV (v : JValue) (field_name : String) (default_value : JValue) :
    Except PyErr JValue :=
  match v with
  | .obj fs => .ok (safe_get_field fs field_name default_value)
  | _ => .error .attributeError

/-- The canonical required-elements schema produced by the mappers (the
`Canvas` sub-object is flattened into the record; fields the claims never
inspect are still carried, as `JValue`s). -/
structure MappedSchema where
  campaign_id : JValue
  campaign_prompt : String
  placement : JValue
  dimensions : JValue
  format : JValue
  background : JValue
  layout_grid : JValue
  bleed_safe_margins : JValue
  background_image_url : JValue
  Text_Blocks : JValue
  cta_buttons : JValue
  brand_logo : JValue
  brand_colors : JValue
  slogans : JValue
  legal_disclaimer : JValue
  decorative_elements : JValue

/-- The `brand_colors` type-enforcement pass of the nested-shape mapper:
`list(dict.values())` flattens a dict in its insertion order; anything that is
neither a list nor a dict becomes the empty list. -/
def normalizeBrandColorsNested (v : JValue) : JValue :=
  if v.isArr then v
  else
    match v with
    | .obj fs => .arr (fs.map Prod.snd)
    | _ => .arr []

/-- The `decorative_elements` type-enforcement pass of the nested-shape
mapper (the follow-up comparison against `""` and `None` can no longer fire
after the list coercion, exactly as in the source). -/
def normalizeDecoNested (v : JValue) : JValue :=
  let v := if v.isArr then v else .arr []
  match v with
  | .str "" => JValue.arr []
  | .null => JValue.arr []
  | v => v

/-- Embedding of the nested-shape `map_supabase_to_required_elements_schema`
(the Approach-1/Approach-5 variants that read everything out of the
`creative_spec` column). Every `.get` on a non-dict raises an AttributeError,
exactly as in Python: the gets on `creative_spec`, on its `Canvas` value and
on the `Imagery` value are the three places where this can happen, so the
sequence of `.get` calls of the source is grouped into the three
corresponding matches (every failing path raises the same AttributeError).
Only `brand_colors` and `decorative_elements` receive a type-enforcement
pass at the end; in particular `Text_Blocks` and `cta_buttons` are passed
through as is. -/
def map_nested_schema (row : List (String × JValue)) (campaign_prompt : String) :
    Except PyErr MappedSchema :=
  match (jlookup row "creative_spec").getD (.obj []) with
  | .obj sfs =>
    (match dictGetD sfs "Canvas" (.obj []) with
     | .obj cfs =>
       (match dictGetD cfs "Imagery" (.obj []) with
        | .obj ifs =>
          .ok { campaign_id := (jlookup row "campaign_id").getD .null,
                campaign_prompt := campaign_prompt,
                placement := dictGetD sfs "placement" (.str "social_media"),
                dimensions := dictGetD sfs "dimensions"
                  (.obj [ ("width", .int 1080), ("height", .int 1080) ]),
                format := dictGetD sfs "format" (.str "static"),
                background := dictGetD cfs "background"
                  (.obj [ ("color", .str "#ffffff"), ("image", .null),
                          ("description", .str "") ]),
                layout_grid := dictGetD cfs "layout_grid" (.str "free"),
                bleed_safe_margins := dictGetD cfs "bleed_safe_margins" (.str ""),
                background_image_url := dictGetD ifs "background_image_url" .null,
                Text_Blocks := dictGetD cfs "Text_Blocks" (.arr []),
                cta_buttons := dictGetD cfs "cta_buttons" (.arr []),
                brand_logo := dictGetD cfs "brand_logo"
                  (.obj [ ("url", .null), ("text_alt", .str "Brand Logo"),
                          ("size", .str "medium"), ("position", .str "top-left") ]),
                brand_colors :=
                  normalizeBrandColorsNested (dictGetD cfs "brand_colors" (.arr [])),
                slogans := dictGetD cfs "slogans" .null,
                legal_disclaimer := dictGetD cfs "legal_disclaimer" .null,
                decorative_elements :=
                  normalizeDecoNested (dictGetD cfs "decorative_elements" (.arr [])) }
        | _ => .error .attributeError)
     | _ => .error .attributeError)
  | _ => .error .attributeError

/-- The imagery scan of the flattened mappers: the first entry whose `type`
equals `"background"` and whose `url` is truthy supplies the background URL. -/
def scanBackgroundUrl (v : JValue) : Option JValue :=
  match v with
  | .arr items =>
    items.findSome? (fun it =>
      match it with
      | .obj fs =>
        let isBg : Bool :=
          match dictGetD fs "type" .null with
          | .str t => t == "background"
          | _ => false
        if isBg && (dictGetD fs "url" .null).pyTruthy then
          some (dictGetD fs "url" .null)
        else none
      | _ => none)
  | _ => none

/-- Text-block mapping of the flattened Approach-1 mapper: non-dict entries
are skipped. -/
def mapTextBlockFlat (v : JValue) : Option JValue :=
  match v with
  | .obj fs =>
    some (.obj [ ("font", dictGetD fs "font_family" (.str "Inter")),
                 ("size", dictGetD fs "font_size" (.str "medium")),
                 ("text", dictGetD fs "text" (.str "")),
                 ("color", dictGetD fs "color" (.str "#000000")),
                 ("position", dictGetD fs "alignment" (.str "center")) ])
  | _ => none

/-- CTA mapping of the flattened Approach-1 mapper: non-dict entries are
skipped. -/
def mapCtaFlat (v : JValue) : Option JValue :=
  match v with
  | .obj fs =>
    some (.obj [ ("text", dictGetD fs "text" (.str "Shop Now")),
                 ("color", dictGetD fs "text_color" (.str "#ffffff")),
                 ("position", .str "bottom-center"),
                 ("background", dictGetD fs "bg_color" (.str "#007bff")),
                 ("style", dictGetD fs "style" (.str "primary")),
                 ("url", dictGetD fs "url" (.str "https://example.com")) ])
  | _ => none

/-- Decorative-element mapping of the flattened Approach-1 mapper. -/
def mapDecoFlat (v : JValue) : Option JValue :=
  match v with
  | .obj fs =>
    some (.obj [ ("shape_type", dictGetD fs "shape_type" (.str "none")),
                 ("color", dictGetD fs "color" (.str "#cccccc")),
                 ("animation", dictGetD fs "animation" (.str "subtle")) ])
  | _ => none

/-- The dict-to-list conversion applied to a dict-shaped `cta_buttons`
collection by the flattened Approach-1 mapper (`list(d.values())`). -/
def ctaDictToList (v : JValue) : JValue :=
  match v with
  | .obj fs => .arr (fs.map Prod.snd)
  | v => v

/-- The `brand_logo` mapping of the flattened Approach-1 mapper: a dict keeps
its `url` and `text_alt` with defaults, anything else becomes the default
logo object. -/
def flatBrandLogo (v : JValue) : JValue :=
  match v with
  | .obj fs =>
    .obj [ ("url", dictGetD fs "url" .null),
           ("text_alt", dictGetD fs "text_alt" (.str "Brand Logo")),
           ("size", .str "medium"), ("position", .str "top-left") ]
  | _ =>
    .obj [ ("url", .null), ("text_alt", .str "Brand Logo"),
           ("size", .str "medium"), ("position", .str "top-left") ]

/-- The `brand_colors` handling of the flattened Approach-1 mapper: a list is
kept as is, anything else becomes the empty list. -/
def flatBrandColors (v : JValue) : JValue :=
  match v with
  | .arr l => .arr l
  | _ => .arr []

/-- The `decorative_elements` handling of the flattened Approach-1 mapper:
the entries of a list are mapped with per-entry validity filtering, anything
else becomes the empty list. -/
def flatDecoElements (v : JValue) : JValue :=
  match v with
  | .arr l => .arr (l.filterMap mapDecoFlat)
  | _ => .arr []

/-- The `background` sub-object construction of the flattened Approach-1
mapper: `safe_get_field` is applied with the row's raw `background` value as
its dict, so a non-dict raw `background` raises an AttributeError. -/
def flatBackgroundFields (row : List (String × JValue)) :
    Except PyErr (JValue × JValue × JValue) :=
  match (jlookup row "background").getD (.obj []) with
  | .obj fs =>
    .ok (safe_get_field fs "type" (.str "solid"),
         safe_get_field fs "color" (.str "#ffffff"),
         safe_get_field fs "description" (.str ""))
  | _ => .error .attributeError

/-- Embedding of the flattened-shape `map_supabase_to_required_elements_schema`
(the Approach-1 variant reading top-level columns, aligned with Approach-2's
mapping logic): every potentially JSON-encoded column goes through
`safe_get_field`, the collection columns are iterated with per-entry
validity filtering, and each list-typed output field is built as a list on
every non-raising path. -/
def map_flattened_schema (row : List (String × JValue)) (campaign_prompt : String) :
    Except PyErr MappedSchema :=
  match flatBackgroundFields row with
  | .error e => .error e
  | .ok bg =>
    let imagery := safe_get_field row "imagery" (.arr [])
    let bgUrl? := scanBackgroundUrl imagery
    let background := JValue.obj
      [ ("type", bg.1), ("color", bg.2.1), ("description", bg.2.2),
        ("image", bgUrl?.getD .null) ]
    match pyIter (safe_get_field row "text_blocks" (.arr [])) with
    | .error e => .error e
    | .ok tbItems =>
      match pyIter (ctaDictToList (safe_get_field row "cta_buttons" (.arr []))) with
      | .error e => .error e
      | .ok ctaItems =>
        .ok { campaign_id := (jlookup row "campaign_id").getD .null,
              campaign_prompt := campaign_prompt,
              placement := safe_get_field row "placement" (.str "social"),
              dimensions := safe_get_field row "dimensions"
                (.obj [ ("width", .int 1080), ("height", .int 1920) ]),
              format := safe_get_field row "format" (.str "static"),
              background := background,
              layout_grid := safe_get_field row "layout_grid" (.str "free"),
              bleed_safe_margins := safe_get_field row "bleed_safe_margins" .null,
              background_image_url := bgUrl?.getD .null,
              Text_Blocks := .arr (tbItems.filterMap mapTextBlockFlat),
              cta_buttons := .arr (ctaItems.filterMap mapCtaFlat),
              brand_logo := flatBrandLogo (safe_get_field row "brand_logo" (.obj [])),
              brand_colors := flatBrandColors (safe_get_field row "brand_colors" (.arr [])),
              slogans := safe_get_field row "slogan" .null,
              legal_disclaimer := safe_get_field row "legal_disclaimer" .null,
              decorative_elements :=
                flatDecoElements (safe_get_field row "decorative_elements" (.arr [])) }

/-- The brand-colors normalization of the Approach-2 flattened mapper: a list
is kept, a dict is flattened by probing the keys `primary`, `accent`,
`secondary` in that fixed order, and anything else becomes the empty list. -/
def brand_colors_approach2 (row : List (String × JValue)) : JValue :=
  match safe_get_field row "brand_colors" (.arr []) with
  | .arr l => .arr l
  | .obj fs =>
    let l1 := match jlookup fs "primary" with | some v => [ v ] | none => []
    let l2 := match jlookup fs "accent" with | some v => [ v ] | none => []
    let l3 := match jlookup fs "secondary" with | some v => [ v ] | none => []
    .arr (l1 ++ l2 ++ l3)
  | _ => .arr []

/-! ## CTA matching (modelled from the spec) -/

/-- Modelled from the spec: a configured CTA button as consumed by the
CTA-matching Phase-4 renderer of the most advanced AI-image variant (that
variant's source file is not part of `src/`; all variants present there
render every box as a plain overlay `<div>`). -/
structure CtaConfig where
  text : String
  color : String
  background : String
  url : Option String
deriving DecidableEq

/-- Modelled from the spec: "normalize its text (lowercase, trimmed)". -/
def normalizeCtaText (s : String) : String :=
  String.mk ((pyStrip s).data.map Char.toLower)

/-- Modelled from the spec: "test substring containment in both directions
against every configured CTA's normalized text". -/
def ctaMatches (boxText : String) (c : CtaConfig) : Bool :=
  let b := normalizeCtaText boxText
  let t := normalizeCtaText c.text
  containsSub b.data t.data || containsSub t.data b.data

/-- Modelled from the spec: "Matching is first-match-wins in CTA-list
order". -/
def findCtaMatch (boxText : String) (ctas : List CtaConfig) : Option CtaConfig :=
  ctas.find? (ctaMatches boxText)

/-- Modelled from the spec: a matched box is rendered as an anchor element
styled as a button with the CTA's configured background and text colors and
its configured url (default `"#"`); an unmatched box is rendered as a plain
overlay `<div>`. -/
def renderOcrBox (b : OCRBox) (ctas : List CtaConfig) (cw ch : ℤ) : String :=
  match findCtaMatch b.text ctas with
  | some c =>
    "        <a class=\"cta-button\" href=\"" ++ c.url.getD "#" ++
    "\" style=\"" ++ overlayStyle b cw ch ++ " background-color: " ++
    c.background ++ "; color: " ++ c.color ++ ";\">" ++ b.text ++ "</a>\n"
  | none => overlayDiv b cw ch

/-! ## Helper lemmas -/

theorem pyMaxZ_eq_max (a b : ℤ) : pyMaxZ a b = max a b := by
  simp only [pyMaxZ, max_def]
  split <;> split <;> omega

theorem pyMinZ_eq_min (a b : ℤ) : pyMinZ a b = min a b := by
  simp only [pyMinZ, min_def]

theorem boxKeyLe_trans (a b c : OCRBox) (h1 : boxKeyLe a b = true)
    (h2 : boxKeyLe b c = true) : boxKeyLe a c = true := by
  simp only [boxKeyLe, decide_eq_true_eq] at h1 h2 ⊢
  rcases h1 with h | ⟨h, h'⟩ <;> rcases h2 with g | ⟨g, g'⟩ <;> omega

theorem boxKeyLe_total (a b : OCRBox) : boxKeyLe a b || boxKeyLe b a := by
  simp only [boxKeyLe, decide_eq_true_eq, Bool.or_eq_true]
  omega

theorem foldl_reduce_eq_filterMap (rs : List RawDetection) (acc : List OCRBox) :
    rs.foldl (fun acc d =>
      match reduceDetection? d with
      | some b => acc ++ [b]
      | none => acc) acc = acc ++ rs.filterMap reduceDetection? := by
  induction rs generalizing acc with
  | nil => simp
  | cons d t ih =>
    simp only [List.foldl_cons, List.filterMap_cons]
    cases h : reduceDetection? d <;> simp [h, ih]

theorem normalizeBrandColorsNested_isArr (v : JValue) :
    (normalizeBrandColorsNested v).isArr = true := by
  cases v <;> simp [normalizeBrandColorsNested, JValue.isArr]

theorem normalizeDecoNested_isArr (v : JValue) :
    (normalizeDecoNested v).isArr = true := by
  cases v <;> simp [normalizeDecoNested, JValue.isArr]

theorem flatBrandColors_isArr (v : JValue) : (flatBrandColors v).isArr = true := by
  cases v <;> rfl

theorem flatDecoElements_isArr (v : JValue) : (flatDecoElements v).isArr = true := by
  cases v <;> rfl

theorem text_infix_overlayDiv (b : OCRBox) (cw ch : ℤ) :
    List.IsInfix b.text.data (overlayDiv b cw ch).data :=
  ⟨("        <div class=\"overlay-text\" style=\"" ++ overlayStyle b cw ch ++ "\">").data,
   "</div>\n".data, by simp [overlayDiv, String.data_append, List.append_assoc]⟩

theorem overlayDiv_infix_concatDivs (boxes : List OCRBox) (b : OCRBox) (cw ch : ℤ)
    (hb : b ∈ boxes) :
    List.IsInfix (overlayDiv b cw ch).data (concatDivs boxes cw ch).data := by
  induction boxes with
  | nil => cases hb
  | cons x t ih =>
    rcases List.mem_cons.mp hb with h | h
    · subst h
      exact ⟨[], (concatDivs t cw ch).data, by simp [concatDivs, String.data_append]⟩
    · rcases ih h with ⟨pre, post, hp⟩
      exact ⟨(overlayDiv x cw ch).data ++ pre, post, by
        simp [concatDivs, String.data_append, ← hp, List.append_assoc]⟩

theorem digitChar_mem_decimalDigits : ∀ i : Fin 10, digitChar i ∈ decimalDigits := by decide

theorem digitStr_mem {a : Fin 10} {d : List (Fin 10)} :
    ∀ c ∈ digitStr a d, c ∈ decimalDigits := by
  intro c hc
  rcases List.mem_cons.mp hc with h | h
  · exact h ▸ digitChar_mem_decimalDigits a
  · rcases List.mem_map.mp h with ⟨i, _, hi⟩
    exact hi ▸ digitChar_mem_decimalDigits i

theorem decimalDigits_facts :
    ∀ c ∈ decimalDigits, c.isDigit = true ∧ pyIsSpace c = false := by decide

theorem digit_beq_false {c a : Char} (hc : c ∈ decimalDigits) (ha : a ∉ decimalDigits) :
    (a == c) = false :=
  beq_eq_false_iff_ne.mpr (fun e => ha (e ▸ hc))

theorem stripPfx_append (p r : List Char) : stripPfx p (p ++ r) = some r := by
  have h : p.isPrefixOf (p ++ r) = true :=
    List.isPrefixOf_iff_prefix.mpr (List.prefix_append p r)
  simp [stripPfx, h, List.drop_left]

theorem stripPfx_of_ne {p s : List Char} (h : p.isPrefixOf s = false) :
    stripPfx p s = none := by
  simp [stripPfx, h]

theorem tryMatchPx_of_ne {prop s : List Char} (h : prop.isPrefixOf s = false) :
    tryMatchPx prop s = none := by
  rw [tryMatchPx, stripPfx_of_ne h]

theorem tryMatchPx_nil (prop : List Char) : tryMatchPx prop [] = none := by
  cases prop <;> rfl

/-- Mismatch inside `t` itself (neither of `prop`, `t` is a prefix of the
other) survives any extension of `t`. -/
theorem isPrefixOf_append_false {prop t : List Char} (h1 : prop.isPrefixOf t = false)
    (h2 : t.isPrefixOf prop = false) (X : List Char) :
    prop.isPrefixOf (t ++ X) = false := by
  induction prop generalizing t with
  | nil => simp [List.isPrefixOf] at h1
  | cons p ps ih =>
    cases t with
    | nil => simp [List.isPrefixOf] at h2
    | cons c cs =>
      simp only [List.isPrefixOf, List.cons_append, Bool.and_eq_false_iff] at h1 h2 ⊢
      rcases h1 with h1 | h1
      · exact Or.inl h1
      · rcases h2 with h2 | h2
        · exact Or.inl (beq_eq_false_iff_ne.mpr (Ne.symm (beq_eq_false_iff_ne.mp h2)))
        · exact Or.inr (ih h1 h2)

theorem noPxMatch_nil (prop : List Char) : NoPxMatch prop [] := by
  intro t ht
  rw [List.suffix_nil.mp ht]
  exact tryMatchPx_nil prop

theorem noPxMatch_cons {prop s : List Char} {c : Char}
    (h1 : tryMatchPx prop (c :: s) = none) (h2 : NoPxMatch prop s) :
    NoPxMatch prop (c :: s) := by
  intro t ht
  rcases List.suffix_cons_iff.mp ht with h | h
  · rw [h]; exact h1
  · exact h2 t h

theorem noPxMatch_digits_append {p : Char} {pt d s : List Char}
    (hp : p ∉ decimalDigits) (hd : ∀ x ∈ d, x ∈ decimalDigits)
    (h : NoPxMatch (p :: pt) s) : NoPxMatch (p :: pt) (d ++ s) := by
  induction d with
  | nil => exact h
  | cons c cs ih =>
    rw [List.cons_append]
    refine noPxMatch_cons (tryMatchPx_of_ne ?_) (ih (fun x hx => hd x (List.mem_cons_of_mem c hx)))
    simp [List.isPrefixOf, digit_beq_false (hd c (List.mem_cons_self c cs)) hp]

/-- A concrete block all of whose non-empty suffixes carry a mismatch with the
pattern inside the block itself can be skipped, whatever follows it. -/
theorem noPxMatch_concrete_append {prop A s : List Char}
    (hA : ∀ t ∈ A.tails, t ≠ [] →
      (prop.isPrefixOf t = false ∧ t.isPrefixOf prop = false))
    (h : NoPxMatch prop s) : NoPxMatch prop (A ++ s) := by
  induction A with
  | nil => exact h
  | cons c cs ih =>
    rw [List.cons_append]
    have hmem : (c :: cs) ∈ (c :: cs).tails :=
      (List.mem_tails (c :: cs) (c :: cs)).mpr (List.suffix_refl _)
    have hc := hA (c :: cs) hmem (by simp)
    refine noPxMatch_cons ?_ (ih (fun t ht hne => hA t ?_ hne))
    · rw [← List.cons_append]
      exact tryMatchPx_of_ne (isPrefixOf_append_false hc.1 hc.2 s)
    · exact (List.mem_tails t (c :: cs)).mpr
        (((List.mem_tails t cs).mp ht).trans (List.suffix_cons c cs))

/-- A fully concrete final block with no match in any suffix. -/
theorem noPxMatch_concrete {prop A : List Char}
    (hA : ∀ t ∈ A.tails, prop.isPrefixOf t = false) : NoPxMatch prop A := by
  intro t ht
  exact tryMatchPx_of_ne (hA t ((List.mem_tails t A).mpr ht))

theorem searchPx_none_of {prop s : List Char} (h : NoPxMatch prop s) :
    searchPx prop s = none := by
  induction s with
  | nil => simp [searchPx, tryMatchPx_nil]
  | cons c t ih =>
    simp only [searchPx]
    rw [h (c :: t) (List.suffix_refl _)]
    exact ih (fun u hu => h u (hu.trans (List.suffix_cons c t)))

theorem searchPx_skip {prop s : List Char} {c : Char}
    (h : tryMatchPx prop (c :: s) = none) :
    searchPx prop (c :: s) = searchPx prop s := by
  simp only [searchPx]
  rw [h]

theorem removePxGo_id_of {prop s : List Char} (h : NoPxMatch prop s) :
    ∀ fuel, removePxGo prop fuel s = s := by
  induction s with
  | nil =>
    intro fuel
    cases fuel with
    | zero => rfl
    | succ n => simp [removePxGo, tryMatchPx_nil]
  | cons c t ih =>
    intro fuel
    cases fuel with
    | zero => rfl
    | succ n =>
      simp only [removePxGo]
      rw [h (c :: t) (List.suffix_refl _)]
      rw [ih (fun u hu => h u (hu.trans (List.suffix_cons c t))) n]

theorem removePxGo_nil (prop : List Char) (fuel : ℕ) : removePxGo prop fuel [] = [] :=
  removePxGo_id_of (noPxMatch_nil prop) fuel

theorem removePxGo_skip {prop s : List Char} {c : Char} {fuel : ℕ}
    (h : tryMatchPx prop (c :: s) = none) :
    removePxGo prop (fuel + 1) (c :: s) = c :: removePxGo prop fuel s := by
  simp only [removePxGo]
  rw [h]

theorem removePxGo_consume {prop s r : List Char} {v : ℤ × ℤ} {fuel : ℕ}
    (h : tryMatchPx prop s = some (v, r)) :
    removePxGo prop (fuel + 1) s = removePxGo prop fuel r := by
  simp only [removePxGo]
  rw [h]

/- digit-scanning of a successful match -/

theorem dropWhile_space_digits {d : List Char} (hne : d ≠ [])
    (hd : ∀ x ∈ d, x ∈ decimalDigits) (t : List Char) :
    (d ++ t).dropWhile pyIsSpace = d ++ t := by
  cases d with
  | nil => exact absurd rfl hne
  | cons c cs =>
    rw [List.cons_append, List.dropWhile_cons,
      (decimalDigits_facts c (hd c (List.mem_cons_self c cs))).2]
    simp

theorem takeWhile_digits_px {d : List Char} (hd : ∀ x ∈ d, x ∈ decimalDigits)
    (t : List Char) :
    (d ++ 'p' :: t).takeWhile Char.isDigit = d := by
  induction d with
  | nil => simp [List.takeWhile_cons]
  | cons c cs ih =>
    rw [List.cons_append, List.takeWhile_cons,
      (decimalDigits_facts c (hd c (List.mem_cons_self c cs))).1]
    simp only [if_true]
    rw [ih (fun x hx => hd x (List.mem_cons_of_mem c hx))]

theorem dropWhile_digits_px {d : List Char} (hd : ∀ x ∈ d, x ∈ decimalDigits)
    (t : List Char) :
    (d ++ 'p' :: t).dropWhile Char.isDigit = 'p' :: t := by
  induction d with
  | nil => simp [List.dropWhile_cons]
  | cons c cs ih =>
    rw [List.cons_append, List.dropWhile_cons,
      (decimalDigits_facts c (hd c (List.mem_cons_self c cs))).1]
    simp only [if_true]
    exact ih (fun x hx => hd x (List.mem_cons_of_mem c hx))

theorem tryMatchPx_match (prop : List Char) {d : List Char} (r : List Char)
    (hne : d ≠ []) (hd : ∀ x ∈ d, x ∈ decimalDigits) :
    tryMatchPx prop (prop ++ (' ' :: (d ++ ('p' :: 'x' :: ';' :: r))))
      = some (((digitsVal d : ℤ), 1), r) := by
  have hde : d.isEmpty = false := by
    cases d with
    | nil => exact absurd rfl hne
    | cons c cs => rfl
  have hpx : stripPfx ['p', 'x', ';'] ('p' :: 'x' :: ';' :: r) = some r :=
    stripPfx_append ['p', 'x', ';'] r
  simp only [tryMatchPx, stripPfx_append, List.dropWhile_cons]
  rw [show pyIsSpace ' ' = true from rfl]
  simp only [if_true]
  rw [dropWhile_space_digits hne hd ('p' :: 'x' :: ';' :: r),
    takeWhile_digits_px hd ('x' :: ';' :: r),
    dropWhile_digits_px hd ('x' :: ';' :: r), hde]
  simp only [Bool.false_eq_true, if_false]
  show (match stripPfx ['p', 'x', ';'] ('p' :: 'x' :: ';' :: r) with
      | none => none
      | some s6 => some (parseDecimal d [], s6)) = some (((digitsVal d : ℤ), 1), r)
  rw [hpx]
  simp [parseDecimal]

theorem tryMatchPx_nosemi (prop : List Char) {d : List Char}
    (hne : d ≠ []) (hd : ∀ x ∈ d, x ∈ decimalDigits) :
    tryMatchPx prop (prop ++ (' ' :: (d ++ ['p', 'x']))) = none := by
  have hde : d.isEmpty = false := by
    cases d with
    | nil => exact absurd rfl hne
    | cons c cs => rfl
  simp only [tryMatchPx, stripPfx_append, List.dropWhile_cons]
  rw [show pyIsSpace ' ' = true from rfl]
  simp only [if_true]
  rw [dropWhile_space_digits hne hd ['p', 'x'],
    show (['p', 'x'] : List Char) = 'p' :: ['x'] from rfl,
    takeWhile_digits_px hd ['x'], dropWhile_digits_px hd ['x'], hde]
  simp only [Bool.false_eq_true, if_false]
  rfl

theorem searchPx_match (p : Char) (pt : List Char) {d : List Char} (r : List Char)
    (hne : d ≠ []) (hd : ∀ x ∈ d, x ∈ decimalDigits) :
    searchPx (p :: pt) ((p :: pt) ++ (' ' :: (d ++ ('p' :: 'x' :: ';' :: r))))
      = some ((digitsVal d : ℤ), 1) := by
  have h := tryMatchPx_match (p :: pt) r hne hd
  rw [show (p :: pt) ++ (' ' :: (d ++ ('p' :: 'x' :: ';' :: r)))
      = p :: (pt ++ (' ' :: (d ++ ('p' :: 'x' :: ';' :: r)))) from rfl] at h ⊢
  simp only [searchPx]
  rw [h]

theorem convertStyle_decomp (s : String) (ow oh : ℤ) :
    convertStyle s ow oh
      = c5Post ow (List.foldl (c5Step ow oh) ([], s.data)
          [ "left", "top", "width", "height" ]) := rfl

theorem takeWhile_append_all {p : Char → Bool} {A : List Char}
    (hA : ∀ x ∈ A, p x = true) {c : Char} (t : List Char) (hc : p c = false) :
    (A ++ c :: t).takeWhile p = A := by
  induction A with
  | nil => simp [List.takeWhile_cons, hc]
  | cons a as ih =>
    rw [List.cons_append, List.takeWhile_cons, hA a (List.mem_cons_self a as)]
    simp only [if_true]
    rw [ih (fun x hx => hA x (List.mem_cons_of_mem a hx))]

theorem dropWhile_append_all {p : Char → Bool} {A : List Char}
    (hA : ∀ x ∈ A, p x = true) {c : Char} (t : List Char) (hc : p c = false) :
    (A ++ c :: t).dropWhile p = c :: t := by
  induction A with
  | nil => simp [List.dropWhile_cons, hc]
  | cons a as ih =>
    rw [List.cons_append, List.dropWhile_cons, hA a (List.mem_cons_self a as)]
    simp only [if_true]
    exact ih (fun x hx => hA x (List.mem_cons_of_mem a hx))

theorem pyStrip_id {s : String} (h1 : s.data.dropWhile pyIsSpace = s.data)
    (h2 : s.data.reverse.dropWhile pyIsSpace = s.data.reverse) : pyStrip s = s := by
  have e : pyStrip s
      = String.mk (((s.data.dropWhile pyIsSpace).reverse.dropWhile pyIsSpace).reverse) := rfl
  rw [e, h1, h2, List.reverse_reverse]

theorem splitOn_eq_single {l : List Char} (h : ∀ x ∈ l, (x == ';') = false) :
    l.splitOn ';' = [l] := by
  rw [show l.splitOn ';' = l.splitOnP (fun x => x == ';') from rfl]
  exact List.splitOnP_eq_single _ _ (fun x hx => by simp [h x hx])

theorem intercalate_go_cons (acc s a : String) (as : List String) :
    String.intercalate.go acc s (a :: as)
      = String.intercalate.go (acc ++ s ++ a) s as := by
  rw [String.intercalate.go]

theorem intercalate_go_nil (acc s : String) : String.intercalate.go acc s [] = acc := by
  rw [String.intercalate.go]

theorem tryMatchElem_of_ne {s : List Char}
    (h : ("class=\"".data).isPrefixOf s = false) : tryMatchElem s = none := by
  simp only [tryMatchElem, stripPfx_of_ne h]

theorem tryMatchElem_nil : tryMatchElem [] = none := rfl

theorem noElemMatch_nil : NoElemMatch [] := by
  intro t ht
  rw [List.suffix_nil.mp ht]
  exact tryMatchElem_nil

theorem noElemMatch_cons {s : List Char} {c : Char}
    (h1 : tryMatchElem (c :: s) = none) (h2 : NoElemMatch s) : NoElemMatch (c :: s) := by
  intro t ht
  rcases List.suffix_cons_iff.mp ht with h | h
  · rw [h]; exact h1
  · exact h2 t h

theorem noElemMatch_concrete {A : List Char}
    (hA : ∀ t ∈ A.tails, ("class=\"".data).isPrefixOf t = false) : NoElemMatch A := by
  intro t ht
  exact tryMatchElem_of_ne (hA t ((List.mem_tails t A).mpr ht))

theorem noElemMatch_concrete_append {A s : List Char}
    (hA : ∀ t ∈ A.tails, t ≠ [] →
      (("class=\"".data).isPrefixOf t = false ∧ t.isPrefixOf ("class=\"".data) = false))
    (h : NoElemMatch s) : NoElemMatch (A ++ s) := by
  induction A with
  | nil => exact h
  | cons c cs ih =>
    rw [List.cons_append]
    have hmem : (c :: cs) ∈ (c :: cs).tails :=
      (List.mem_tails (c :: cs) (c :: cs)).mpr (List.suffix_refl _)
    have hc := hA (c :: cs) hmem (by simp)
    refine noElemMatch_cons ?_ (ih (fun t ht hne => hA t ?_ hne))
    · rw [← List.cons_append]
      exact tryMatchElem_of_ne (isPrefixOf_append_false hc.1 hc.2 s)
    · exact (List.mem_tails t (c :: cs)).mpr
        (((List.mem_tails t cs).mp ht).trans (List.suffix_cons c cs))

theorem noElemMatch_digits_append {d s : List Char}
    (hd : ∀ x ∈ d, x ∈ decimalDigits) (h : NoElemMatch s) : NoElemMatch (d ++ s) := by
  induction d with
  | nil => exact h
  | cons c cs ih =>
    rw [List.cons_append]
    refine noElemMatch_cons (tryMatchElem_of_ne ?_)
      (ih (fun x hx => hd x (List.mem_cons_of_mem c hx)))
    have hbc : ('c' == c) = false :=
      digit_beq_false (hd c (List.mem_cons_self c cs))
        (by decide : 'c' ∉ decimalDigits)
    rw [show ("class=\"".data : List Char) = 'c' :: "lass=\"".data from rfl]
    simp [List.isPrefixOf, hbc]

theorem rewriteOverlayGo_id_of {ow oh : ℤ} {s : List Char} (h : NoElemMatch s) :
    ∀ fuel, rewriteOverlayGo ow oh fuel s = s := by
  induction s with
  | nil =>
    intro fuel
    cases fuel with
    | zero => rfl
    | succ n => simp [rewriteOverlayGo, tryMatchElem_nil]
  | cons c t ih =>
    intro fuel
    cases fuel with
    | zero => rfl
    | succ n =>
      simp only [rewriteOverlayGo]
      rw [h (c :: t) (List.suffix_refl _)]
      rw [ih (fun u hu => h u (hu.trans (List.suffix_cons c t))) n]

theorem rewriteOverlayGo_skip {ow oh : ℤ} {n : ℕ} {a : Char} {l : List Char}
    (h : tryMatchElem (a :: l) = none) :
    rewriteOverlayGo ow oh (n + 1) (a :: l) = a :: rewriteOverlayGo ow oh n l := by
  simp only [rewriteOverlayGo]
  rw [h]

theorem rewriteOverlayGo_consume {ow oh : ℤ} {fuel : ℕ} {s cls sty after : List Char}
    (h : tryMatchElem s = some (cls, sty, after)) :
    rewriteOverlayGo ow oh (fuel + 1) s
      = "class=\"".data ++ cls ++ [ '"' ] ++ " style=\"".data ++
        (convertStyle (String.mk sty) ow oh).data ++ [ '"' ] ++
        rewriteOverlayGo ow oh fuel after := by
  simp only [rewriteOverlayGo]
  rw [h]

theorem rewriteOverlayGo_skip_batch {ow oh : ℤ} {A : List Char}
    (hA : ∀ x ∈ A, ('c' == x) = false) :
    ∀ (fuel : ℕ) (t : List Char),
      rewriteOverlayGo ow oh (A.length + fuel) (A ++ t)
        = A ++ rewriteOverlayGo ow oh fuel t := by
  induction A with
  | nil =>
    intro fuel t
    simp
  | cons a as ih =>
    intro fuel t
    have hnone : tryMatchElem (a :: (as ++ t)) = none := by
      refine tryMatchElem_of_ne ?_
      rw [show ("class=\"".data : List Char) = 'c' :: "lass=\"".data from rfl]
      simp [List.isPrefixOf, hA a (List.mem_cons_self a as)]
    rw [List.cons_append, show (a :: as).length = as.length + 1 from rfl,
      show as.length + 1 + fuel = (as.length + fuel) + 1 from by omega,
      rewriteOverlayGo_skip hnone,
      ih (fun x hx => hA x (List.mem_cons_of_mem a hx)) fuel t, List.cons_append]

theorem tryMatchElem_overlay {sty after : List Char}
    (hq : ∀ x ∈ sty, x ≠ '"') :
    tryMatchElem ("class=\"overlay-text\" style=\"".data ++ (sty ++ ('"' :: after)))
      = some ("overlay-text".data, sty, after) := by
  have hA : ∀ x ∈ sty, (fun c => decide (c ≠ '"')) x = true :=
    fun x hx => decide_eq_true (hq x hx)
  rw [show ("class=\"overlay-text\" style=\"".data : List Char) ++ (sty ++ ('"' :: after))
      = "class=\"".data ++ ("overlay-text\" style=\"".data ++ (sty ++ ('"' :: after)))
      from rfl]
  simp only [tryMatchElem, stripPfx_append]
  rw [show List.dropWhile (fun c => decide (c ≠ '"'))
        (['o','v','e','r','l','a','y','-','t','e','x','t','"',' ','s','t','y','l','e','=','"'] ++ (sty ++ '"' :: after))
      = '"' :: ([' ','s','t','y','l','e','=','"'] ++ (sty ++ '"' :: after)) from rfl,
    show List.takeWhile (fun c => decide (c ≠ '"'))
        (['o','v','e','r','l','a','y','-','t','e','x','t','"',' ','s','t','y','l','e','=','"'] ++ (sty ++ '"' :: after))
      = ['o','v','e','r','l','a','y','-','t','e','x','t'] from rfl]
  split
  · rename_i x s3 heq
    injection heq with hhd htl
    subst htl
    rw [if_pos (show (containsSub ['o','v','e','r','l','a','y','-','t','e','x','t']
          ['o','v','e','r','l','a','y','-','t','e','x','t'] ||
        containsSub ['o','v','e','r','l','a','y','-','t','e','x','t']
          ['c','t','a','-','b','u','t','t','o','n']) = true from by decide)]
    rw [show List.takeWhile pyIsSpace ([' ','s','t','y','l','e','=','"'] ++ (sty ++ '"' :: after))
        = [' '] from rfl]
    rw [if_neg (show ¬(List.isEmpty [' '] = true) from by decide)]
    rw [show List.dropWhile pyIsSpace ([' ','s','t','y','l','e','=','"'] ++ (sty ++ '"' :: after))
        = ['s','t','y','l','e','=','"'] ++ (sty ++ '"' :: after) from rfl]
    rw [stripPfx_append]
    split
    · rename_i s5 heq2
      exact Option.noConfusion heq2
    · rename_i x2 heq2
      injection heq2 with h2
      subst h2
      rw [dropWhile_append_all hA after (by decide),
        takeWhile_append_all hA after (by decide)]
      rfl
  · rename_i x hx
    exact (hx _ rfl).elim

theorem digitStr_ne_nil (a : Fin 10) (d : List (Fin 10)) : digitStr a d ≠ [] := by
  simp [digitStr]

theorem data_mk (l : List Char) : (String.mk l).data = l := rfl

theorem digit_beq_semi {x : Char} (hx : x ∈ decimalDigits) : (x == ';') = false :=
  beq_eq_false_iff_ne.mpr (fun e => (by decide : (';' : Char) ∉ decimalDigits) (e ▸ hx))

theorem c5Step_none {ow oh : ℤ} (a : List String) (l : List Char) {prop : String}
    (h : searchPx (prop ++ ":").data l = none) :
    c5Step ow oh (a, l) prop = (a, l) := by
  simp only [c5Step]
  rw [h]

theorem c5Post_font_none {ow : ℤ} {a : List String} {l : List Char}
    (h : searchPx "font-size:".data l = none) :
    c5Post ow (a, l)
      = pyStrip (String.intercalate "; " (a ++
          ((l.splitOn ';').map (fun p => pyStrip (String.mk p))).filter
            (fun p => p ≠ ""))) := by
  simp only [c5Post]
  rw [h]

/-- A `left: <digits>px` declaration with no trailing semicolon is matched by
none of the five conversion regexes, so the style string passes through the
post-processor unchanged. -/
theorem c5_conv_nosemi (dl : Fin 10) (ls : List (Fin 10)) (ow oh : ℤ) :
    convertStyle (String.mk ("left: ".data ++ (digitStr dl ls ++ "px".data))) ow oh
      = String.mk ("left: ".data ++ (digitStr dl ls ++ "px".data)) := by
  rw [show ("left: " : String).data = ['l','e','f','t',':',' '] from rfl,
    show ("px" : String).data = ['p','x'] from rfl]
  have hL : searchPx ("left" ++ ":").data
      (['l','e','f','t',':',' '] ++ (digitStr dl ls ++ ['p','x'])) = none := by
    rw [show ("left" ++ ":" : String).data = ['l','e','f','t',':'] from rfl,
      show ['l','e','f','t',':',' '] ++ (digitStr dl ls ++ ['p','x'])
        = 'l' :: (['e','f','t',':'] ++ (' ' :: (digitStr dl ls ++ ['p','x']))) from rfl]
    rw [searchPx_skip (by
      rw [show 'l' :: (['e','f','t',':'] ++ (' ' :: (digitStr dl ls ++ ['p','x'])))
        = ['l','e','f','t',':'] ++ (' ' :: (digitStr dl ls ++ ['p','x'])) from rfl]
      exact tryMatchPx_nosemi _ (digitStr_ne_nil dl ls) digitStr_mem)]
    rw [show ['e','f','t',':'] ++ (' ' :: (digitStr dl ls ++ ['p','x']))
      = ['e','f','t',':',' '] ++ (digitStr dl ls ++ ['p','x']) from rfl]
    exact searchPx_none_of (noPxMatch_concrete_append (by decide)
      (noPxMatch_digits_append (by decide) digitStr_mem (noPxMatch_concrete (by decide))))
  have hT : searchPx ("top" ++ ":").data
      (['l','e','f','t',':',' '] ++ (digitStr dl ls ++ ['p','x'])) = none := by
    rw [show ("top" ++ ":" : String).data = ['t','o','p',':'] from rfl]
    exact searchPx_none_of (noPxMatch_concrete_append (by decide)
      (noPxMatch_digits_append (by decide) digitStr_mem (noPxMatch_concrete (by decide))))
  have hW : searchPx ("width" ++ ":").data
      (['l','e','f','t',':',' '] ++ (digitStr dl ls ++ ['p','x'])) = none := by
    rw [show ("width" ++ ":" : String).data = ['w','i','d','t','h',':'] from rfl]
    exact searchPx_none_of (noPxMatch_concrete_append (by decide)
      (noPxMatch_digits_append (by decide) digitStr_mem (noPxMatch_concrete (by decide))))
  have hH : searchPx ("height" ++ ":").data
      (['l','e','f','t',':',' '] ++ (digitStr dl ls ++ ['p','x'])) = none := by
    rw [show ("height" ++ ":" : String).data = ['h','e','i','g','h','t',':'] from rfl]
    exact searchPx_none_of (noPxMatch_concrete_append (by decide)
      (noPxMatch_digits_append (by decide) digitStr_mem (noPxMatch_concrete (by decide))))
  have hF : searchPx ("font-size:" : String).data
      (['l','e','f','t',':',' '] ++ (digitStr dl ls ++ ['p','x'])) = none := by
    rw [show ("font-size:" : String).data = ['f','o','n','t','-','s','i','z','e',':'] from rfl]
    exact searchPx_none_of (noPxMatch_concrete_append (by decide)
      (noPxMatch_digits_append (by decide) digitStr_mem (noPxMatch_concrete (by decide))))
  have hstrip : pyStrip (String.mk
      (['l','e','f','t',':',' '] ++ (digitStr dl ls ++ ['p','x'])))
      = String.mk (['l','e','f','t',':',' '] ++ (digitStr dl ls ++ ['p','x'])) := by
    refine pyStrip_id ?_ ?_
    · rfl
    · show (['l','e','f','t',':',' '] ++ (digitStr dl ls ++ ['p','x'])).reverse.dropWhile
          pyIsSpace
        = (['l','e','f','t',':',' '] ++ (digitStr dl ls ++ ['p','x'])).reverse
      rw [List.reverse_append, List.reverse_append]
      rfl
  have hmk : String.mk (['l','e','f','t',':',' '] ++ (digitStr dl ls ++ ['p','x'])) ≠ "" := by
    intro h
    exact List.noConfusion (congrArg String.data h)
  have hconc : ∀ x ∈ (['l','e','f','t',':',' '] : List Char), (x == ';') = false := by
    decide
  have hpx2 : ∀ x ∈ (['p','x'] : List Char), (x == ';') = false := by decide
  have hsemi : ∀ x ∈ ['l','e','f','t',':',' '] ++ (digitStr dl ls ++ ['p','x']),
      (x == ';') = false := by
    intro x hx
    rcases List.mem_append.mp hx with h | h
    · exact hconc x h
    · rcases List.mem_append.mp h with h | h
      · exact digit_beq_semi (digitStr_mem x h)
      · exact hpx2 x h
  rw [convertStyle_decomp, data_mk, List.foldl_cons, c5Step_none _ _ hL,
    List.foldl_cons, c5Step_none _ _ hT, List.foldl_cons, c5Step_none _ _ hW,
    List.foldl_cons, c5Step_none _ _ hH, List.foldl_nil]
  rw [c5Post_font_none hF]
  rw [splitOn_eq_single hsemi]
  simp only [List.map_cons, List.map_nil, List.filter_cons, List.filter_nil]
  rw [hstrip]
  rw [decide_eq_true hmk, if_pos rfl]
  simp only [List.nil_append]
  rw [show String.intercalate "; "
      [String.mk (['l','e','f','t',':',' '] ++ (digitStr dl ls ++ ['p','x']))]
    = String.mk (['l','e','f','t',':',' '] ++ (digitStr dl ls ++ ['p','x'])) from by
    simp only [String.intercalate]
    rw [intercalate_go_nil]]
  exact hstrip

theorem removePx_eq (prop s : List Char) : removePx prop s = removePxGo prop s.length s := rfl

theorem c5Step_some_one {ow oh : ℤ} (a : List String) (l : List Char) {prop : String}
    {V : ℤ} (h : searchPx (prop ++ ":").data l = some (V, 1)) :
    c5Step ow oh (a, l) prop
      = (a ++ [prop ++ ": " ++ fmt4 (V * 100)
            (if prop = "left" ∨ prop = "width" then ow else oh) ++ "%;"],
         removePx (prop ++ ":").data l) := by
  simp only [c5Step]
  rw [h]
  show (a ++ [prop ++ ": " ++ fmt4 (V * 100)
      ((1 : ℤ) * (if prop = "left" ∨ prop = "width" then ow else oh)) ++ "%;"],
    removePx (prop ++ ":").data l) = _
  rw [one_mul]

theorem intercalate_singleton (x : String) : String.intercalate "; " [x] = x := by
  simp only [String.intercalate]
  rw [intercalate_go_nil]

theorem intercalate_pair (x y : String) : String.intercalate "; " [x, y] = x ++ "; " ++ y := by
  simp only [String.intercalate]
  rw [intercalate_go_cons, intercalate_go_nil]

theorem intercalate_six (a b c d e f : String) :
    String.intercalate "; " [a, b, c, d, e, f]
      = a ++ "; " ++ b ++ "; " ++ c ++ "; " ++ d ++ "; " ++ e ++ "; " ++ f := by
  simp only [String.intercalate]
  rw [intercalate_go_cons, intercalate_go_cons, intercalate_go_cons,
    intercalate_go_cons, intercalate_go_cons, intercalate_go_nil]

/-- Duplicate `left` declarations: the first pixel value is converted, and
every `left: <n>px;` declaration is removed. -/
theorem c5_conv_dup (dl dt : Fin 10) (ls ts : List (Fin 10)) (ow oh : ℤ) :
    convertStyle (String.mk ("left: ".data ++ (digitStr dl ls ++
        ("px; left: ".data ++ (digitStr dt ts ++ "px;".data))))) ow oh
      = "left: " ++ (fmt4 ((digitsVal (digitStr dl ls) : ℤ) * 100) ow ++ "%;") := by
  rw [show ("left: " : String).data = ['l','e','f','t',':',' '] from rfl,
    show ("px; left: " : String).data = ['p','x',';',' ','l','e','f','t',':',' '] from rfl,
    show ("px;" : String).data = ['p','x',';'] from rfl]
  have htry1 : tryMatchPx ['l','e','f','t',':']
      (['l','e','f','t',':',' '] ++ (digitStr dl ls ++
        (['p','x',';',' ','l','e','f','t',':',' '] ++ (digitStr dt ts ++ ['p','x',';']))))
      = some (((digitsVal (digitStr dl ls) : ℤ), 1),
          ' ' :: (['l','e','f','t',':'] ++ (' ' :: (digitStr dt ts ++
            ('p' :: 'x' :: ';' :: ([] : List Char)))))) := by
    rw [show ['l','e','f','t',':',' '] ++ (digitStr dl ls ++
        (['p','x',';',' ','l','e','f','t',':',' '] ++ (digitStr dt ts ++ ['p','x',';'])))
      = ['l','e','f','t',':'] ++ (' ' :: (digitStr dl ls ++ ('p' :: 'x' :: ';' ::
          (' ' :: (['l','e','f','t',':'] ++ (' ' :: (digitStr dt ts ++
            ('p' :: 'x' :: ';' :: ([] : List Char))))))))) from rfl]
    exact tryMatchPx_match _ _ (digitStr_ne_nil dl ls) digitStr_mem
  have htry3 : tryMatchPx ['l','e','f','t',':']
      (['l','e','f','t',':'] ++ (' ' :: (digitStr dt ts ++ ('p' :: 'x' :: ';' :: ([] : List Char)))))
      = some (((digitsVal (digitStr dt ts) : ℤ), 1), ([] : List Char)) :=
    tryMatchPx_match _ _ (digitStr_ne_nil dt ts) digitStr_mem
  have hL : searchPx ("left" ++ ":").data
      (['l','e','f','t',':',' '] ++ (digitStr dl ls ++
        (['p','x',';',' ','l','e','f','t',':',' '] ++ (digitStr dt ts ++ ['p','x',';']))))
      = some ((digitsVal (digitStr dl ls) : ℤ), 1) := by
    rw [show ("left" ++ ":" : String).data = ['l','e','f','t',':'] from rfl,
      show ['l','e','f','t',':',' '] ++ (digitStr dl ls ++
        (['p','x',';',' ','l','e','f','t',':',' '] ++ (digitStr dt ts ++ ['p','x',';'])))
      = ['l','e','f','t',':'] ++ (' ' :: (digitStr dl ls ++ ('p' :: 'x' :: ';' ::
          (' ' :: (['l','e','f','t',':'] ++ (' ' :: (digitStr dt ts ++
            ('p' :: 'x' :: ';' :: ([] : List Char))))))))) from rfl]
    exact searchPx_match 'l' ['e','f','t',':'] _ (digitStr_ne_nil dl ls) digitStr_mem
  have hlen : (['l','e','f','t',':',' '] ++ (digitStr dl ls ++
        (['p','x',';',' ','l','e','f','t',':',' '] ++ (digitStr dt ts ++ ['p','x',';'])))).length
      = ((['l','e','f','t',':',' '] ++ (digitStr dl ls ++
        (['p','x',';',' ','l','e','f','t',':',' '] ++ (digitStr dt ts ++ ['p','x',';'])))).length
        - 3) + 1 + 1 + 1 := by
    simp [digitStr, List.length_append]
  have hLr : removePx ("left" ++ ":").data
      (['l','e','f','t',':',' '] ++ (digitStr dl ls ++
        (['p','x',';',' ','l','e','f','t',':',' '] ++ (digitStr dt ts ++ ['p','x',';']))))
      = [' '] := by
    rw [show ("left" ++ ":" : String).data = ['l','e','f','t',':'] from rfl, removePx_eq,
      hlen, removePxGo_consume htry1,
      removePxGo_skip (tryMatchPx_of_ne (by rfl)), removePxGo_consume htry3,
      removePxGo_nil]
  have hT : searchPx ("top" ++ ":").data ([' '] : List Char) = none := by
    rw [show ("top" ++ ":" : String).data = ['t','o','p',':'] from rfl]
    exact searchPx_none_of (noPxMatch_concrete (by decide))
  have hW : searchPx ("width" ++ ":").data ([' '] : List Char) = none := by
    rw [show ("width" ++ ":" : String).data = ['w','i','d','t','h',':'] from rfl]
    exact searchPx_none_of (noPxMatch_concrete (by decide))
  have hH : searchPx ("height" ++ ":").data ([' '] : List Char) = none := by
    rw [show ("height" ++ ":" : String).data = ['h','e','i','g','h','t',':'] from rfl]
    exact searchPx_none_of (noPxMatch_concrete (by decide))
  have hF : searchPx ("font-size:" : String).data ([' '] : List Char) = none := by
    rw [show ("font-size:" : String).data = ['f','o','n','t','-','s','i','z','e',':'] from rfl]
    exact searchPx_none_of (noPxMatch_concrete (by decide))
  rw [convertStyle_decomp, data_mk, List.foldl_cons, c5Step_some_one _ _ hL,
    if_pos (Or.inl rfl : ("left" : String) = "left" ∨ ("left" : String) = "width"), hLr,
    List.foldl_cons, c5Step_none _ _ hT, List.foldl_cons, c5Step_none _ _ hW,
    List.foldl_cons, c5Step_none _ _ hH, List.foldl_nil]
  rw [c5Post_font_none hF]
  rw [show (([' '] : List Char).splitOn ';') = [[' ']] from rfl]
  simp only [List.map_cons, List.map_nil]
  rw [show pyStrip (String.mk [' ']) = "" from rfl]
  rw [show (List.filter (fun p => decide (p ≠ "")) [""] : List String) = [] from rfl]
  rw [List.append_nil, List.nil_append, intercalate_singleton]
  have hstrip : pyStrip ("left" ++ ": " ++
      fmt4 ((digitsVal (digitStr dl ls) : ℤ) * 100) ow ++ "%;")
      = "left" ++ ": " ++ fmt4 ((digitsVal (digitStr dl ls) : ℤ) * 100) ow ++ "%;" := by
    refine pyStrip_id ?_ ?_
    · rw [String.data_append, String.data_append, String.data_append]
      rfl
    · rw [String.data_append, String.data_append, String.data_append,
        List.reverse_append, List.reverse_append, List.reverse_append]
      rfl
  rw [hstrip]
  refine String.ext ?_
  rw [String.data_append, String.data_append, String.data_append,
    String.data_append, String.data_append]
  rfl

theorem c5Post_font_one {ow : ℤ} {a : List String} {l : List Char} {V : ℤ}
    (h : searchPx "font-size:".data l = some (V, 1)) :
    c5Post ow (a, l)
      = pyStrip (String.intercalate "; " ((a ++
          [ "font-size: " ++ fmt4 (V * 100) ow ++ "vw;" ]) ++
          (((removePx "font-size:".data l).splitOn ';').map
            (fun p => pyStrip (String.mk p))).filter (fun p => p ≠ ""))) := by
  simp only [c5Post]
  rw [h]
  show pyStrip (String.intercalate "; " ((a ++
      [ "font-size: " ++ fmt4 ((V, (1 : ℤ)).1 * 100) ((V, (1 : ℤ)).2 * ow) ++ "vw;" ]) ++
      (((removePx "font-size:".data l).splitOn ';').map
        (fun p => pyStrip (String.mk p))).filter (fun p => p ≠ "")))
    = pyStrip (String.intercalate "; " ((a ++
      [ "font-size: " ++ fmt4 (V * 100) ow ++ "vw;" ]) ++
      (((removePx "font-size:".data l).splitOn ';').map
        (fun p => pyStrip (String.mk p))).filter (fun p => p ≠ "")))
  rw [show ((V, (1 : ℤ)).1 : ℤ) = V from rfl, show ((V, (1 : ℤ)).2 : ℤ) = 1 from rfl,
    one_mul]

/-- The five-property conversion on a style carrying all five pixel
declarations plus a `color` declaration. -/
theorem c5_conv_main (dl dt dw dh df : Fin 10) (ls ts ws hs fs : List (Fin 10)) (ow oh : ℤ) :
    convertStyle (String.mk ("left: ".data ++ (digitStr dl ls ++
        ("px; top: ".data ++ (digitStr dt ts ++
        ("px; width: ".data ++ (digitStr dw ws ++
        ("px; height: ".data ++ (digitStr dh hs ++
        ("px; font-size: ".data ++ (digitStr df fs ++
        "px; color: red;".data))))))))))) ow oh
      = "left: " ++ (fmt4 ((digitsVal (digitStr dl ls) : ℤ) * 100) ow ++
        ("%;; top: " ++ (fmt4 ((digitsVal (digitStr dt ts) : ℤ) * 100) oh ++
        ("%;; width: " ++ (fmt4 ((digitsVal (digitStr dw ws) : ℤ) * 100) ow ++
        ("%;; height: " ++ (fmt4 ((digitsVal (digitStr dh hs) : ℤ) * 100) oh ++
        ("%;; font-size: " ++ (fmt4 ((digitsVal (digitStr df fs) : ℤ) * 100) ow ++
        "vw;; color: red"))))))))) := by
  rw [show ("left: " : String).data = ['l','e','f','t',':',' '] from rfl,
    show ("px; top: " : String).data = ['p','x',';',' ','t','o','p',':',' '] from rfl,
    show ("px; width: " : String).data = ['p','x',';',' ','w','i','d','t','h',':',' '] from rfl,
    show ("px; height: " : String).data = ['p','x',';',' ','h','e','i','g','h','t',':',' '] from rfl,
    show ("px; font-size: " : String).data = ['p','x',';',' ','f','o','n','t','-','s','i','z','e',':',' '] from rfl,
    show ("px; color: red;" : String).data = ['p','x',';',' ','c','o','l','o','r',':',' ','r','e','d',';'] from rfl]
  have htryL : tryMatchPx ['l','e','f','t',':'] (['l','e','f','t',':',' '] ++ (digitStr dl ls ++ (['p','x',';',' ','t','o','p',':',' '] ++ (digitStr dt ts ++ (['p','x',';',' ','w','i','d','t','h',':',' '] ++ (digitStr dw ws ++ (['p','x',';',' ','h','e','i','g','h','t',':',' '] ++ (digitStr dh hs ++ (['p','x',';',' ','f','o','n','t','-','s','i','z','e',':',' '] ++ (digitStr df fs ++ ['p','x',';',' ','c','o','l','o','r',':',' ','r','e','d',';']))))))))))
      = some (((digitsVal (digitStr dl ls) : ℤ), 1), [' ','t','o','p',':',' '] ++ (digitStr dt ts ++ (['p','x',';',' ','w','i','d','t','h',':',' '] ++ (digitStr dw ws ++ (['p','x',';',' ','h','e','i','g','h','t',':',' '] ++ (digitStr dh hs ++ (['p','x',';',' ','f','o','n','t','-','s','i','z','e',':',' '] ++ (digitStr df fs ++ ['p','x',';',' ','c','o','l','o','r',':',' ','r','e','d',';'])))))))) := by
    rw [show ['l','e','f','t',':',' '] ++ (digitStr dl ls ++ (['p','x',';',' ','t','o','p',':',' '] ++ (digitStr dt ts ++ (['p','x',';',' ','w','i','d','t','h',':',' '] ++ (digitStr dw ws ++ (['p','x',';',' ','h','e','i','g','h','t',':',' '] ++ (digitStr dh hs ++ (['p','x',';',' ','f','o','n','t','-','s','i','z','e',':',' '] ++ (digitStr df fs ++ ['p','x',';',' ','c','o','l','o','r',':',' ','r','e','d',';']))))))))) = ['l','e','f','t',':'] ++ (' ' :: (digitStr dl ls ++ ('p' :: 'x' :: ';' :: ([' ','t','o','p',':',' '] ++ (digitStr dt ts ++ (['p','x',';',' ','w','i','d','t','h',':',' '] ++ (digitStr dw ws ++ (['p','x',';',' ','h','e','i','g','h','t',':',' '] ++ (digitStr dh hs ++ (['p','x',';',' ','f','o','n','t','-','s','i','z','e',':',' '] ++ (digitStr df fs ++ ['p','x',';',' ','c','o','l','o','r',':',' ','r','e','d',';']))))))))))) from rfl]
    exact tryMatchPx_match _ _ (digitStr_ne_nil dl ls) digitStr_mem
  have htryT : tryMatchPx ['t','o','p',':']
      (['t','o','p',':'] ++ (' ' :: (digitStr dt ts ++ ('p' :: 'x' :: ';' :: ([' ','w','i','d','t','h',':',' '] ++ (digitStr dw ws ++ (['p','x',';',' ','h','e','i','g','h','t',':',' '] ++ (digitStr dh hs ++ (['p','x',';',' ','f','o','n','t','-','s','i','z','e',':',' '] ++ (digitStr df fs ++ ['p','x',';',' ','c','o','l','o','r',':',' ','r','e','d',';']))))))))))
      = some (((digitsVal (digitStr dt ts) : ℤ), 1), [' ','w','i','d','t','h',':',' '] ++ (digitStr dw ws ++ (['p','x',';',' ','h','e','i','g','h','t',':',' '] ++ (digitStr dh hs ++ (['p','x',';',' ','f','o','n','t','-','s','i','z','e',':',' '] ++ (digitStr df fs ++ ['p','x',';',' ','c','o','l','o','r',':',' ','r','e','d',';'])))))) :=
    tryMatchPx_match _ _ (digitStr_ne_nil dt ts) digitStr_mem
  have htryW : tryMatchPx ['w','i','d','t','h',':']
      (['w','i','d','t','h',':'] ++ (' ' :: (digitStr dw ws ++ ('p' :: 'x' :: ';' :: ([' ','h','e','i','g','h','t',':',' '] ++ (digitStr dh hs ++ (['p','x',';',' ','f','o','n','t','-','s','i','z','e',':',' '] ++ (digitStr df fs ++ ['p','x',';',' ','c','o','l','o','r',':',' ','r','e','d',';']))))))))
      = some (((digitsVal (digitStr dw ws) : ℤ), 1), [' ','h','e','i','g','h','t',':',' '] ++ (digitStr dh hs ++ (['p','x',';',' ','f','o','n','t','-','s','i','z','e',':',' '] ++ (digitStr df fs ++ ['p','x',';',' ','c','o','l','o','r',':',' ','r','e','d',';'])))) :=
    tryMatchPx_match _ _ (digitStr_ne_nil dw ws) digitStr_mem
  have htryH : tryMatchPx ['h','e','i','g','h','t',':']
      (['h','e','i','g','h','t',':'] ++ (' ' :: (digitStr dh hs ++ ('p' :: 'x' :: ';' :: ([' ','f','o','n','t','-','s','i','z','e',':',' '] ++ (digitStr df fs ++ ['p','x',';',' ','c','o','l','o','r',':',' ','r','e','d',';']))))))
      = some (((digitsVal (digitStr dh hs) : ℤ), 1), [' ','f','o','n','t','-','s','i','z','e',':',' '] ++ (digitStr df fs ++ ['p','x',';',' ','c','o','l','o','r',':',' ','r','e','d',';'])) :=
    tryMatchPx_match _ _ (digitStr_ne_nil dh hs) digitStr_mem
  have htryF : tryMatchPx ['f','o','n','t','-','s','i','z','e',':']
      (['f','o','n','t','-','s','i','z','e',':'] ++ (' ' :: (digitStr df fs ++ ('p' :: 'x' :: ';' :: ([' ','c','o','l','o','r',':',' ','r','e','d',';'])))))
      = some (((digitsVal (digitStr df fs) : ℤ), 1), [' ','c','o','l','o','r',':',' ','r','e','d',';']) :=
    tryMatchPx_match _ _ (digitStr_ne_nil df fs) digitStr_mem
  have hL : searchPx ("left" ++ ":").data (['l','e','f','t',':',' '] ++ (digitStr dl ls ++ (['p','x',';',' ','t','o','p',':',' '] ++ (digitStr dt ts ++ (['p','x',';',' ','w','i','d','t','h',':',' '] ++ (digitStr dw ws ++ (['p','x',';',' ','h','e','i','g','h','t',':',' '] ++ (digitStr dh hs ++ (['p','x',';',' ','f','o','n','t','-','s','i','z','e',':',' '] ++ (digitStr df fs ++ ['p','x',';',' ','c','o','l','o','r',':',' ','r','e','d',';'])))))))))) = some ((digitsVal (digitStr dl ls) : ℤ), 1) := by
    rw [show ("left" ++ ":" : String).data = ['l','e','f','t',':'] from rfl,
      show ['l','e','f','t',':',' '] ++ (digitStr dl ls ++ (['p','x',';',' ','t','o','p',':',' '] ++ (digitStr dt ts ++ (['p','x',';',' ','w','i','d','t','h',':',' '] ++ (digitStr dw ws ++ (['p','x',';',' ','h','e','i','g','h','t',':',' '] ++ (digitStr dh hs ++ (['p','x',';',' ','f','o','n','t','-','s','i','z','e',':',' '] ++ (digitStr df fs ++ ['p','x',';',' ','c','o','l','o','r',':',' ','r','e','d',';']))))))))) = ['l','e','f','t',':'] ++ (' ' :: (digitStr dl ls ++ ('p' :: 'x' :: ';' :: ([' ','t','o','p',':',' '] ++ (digitStr dt ts ++ (['p','x',';',' ','w','i','d','t','h',':',' '] ++ (digitStr dw ws ++ (['p','x',';',' ','h','e','i','g','h','t',':',' '] ++ (digitStr dh hs ++ (['p','x',';',' ','f','o','n','t','-','s','i','z','e',':',' '] ++ (digitStr df fs ++ ['p','x',';',' ','c','o','l','o','r',':',' ','r','e','d',';']))))))))))) from rfl]
    exact searchPx_match 'l' ['e','f','t',':'] _ (digitStr_ne_nil dl ls) digitStr_mem
  have hT : searchPx ("top" ++ ":").data ([' ','t','o','p',':',' '] ++ (digitStr dt ts ++ (['p','x',';',' ','w','i','d','t','h',':',' '] ++ (digitStr dw ws ++ (['p','x',';',' ','h','e','i','g','h','t',':',' '] ++ (digitStr dh hs ++ (['p','x',';',' ','f','o','n','t','-','s','i','z','e',':',' '] ++ (digitStr df fs ++ ['p','x',';',' ','c','o','l','o','r',':',' ','r','e','d',';'])))))))) = some ((digitsVal (digitStr dt ts) : ℤ), 1) := by
    rw [show ("top" ++ ":" : String).data = ['t','o','p',':'] from rfl,
      show [' ','t','o','p',':',' '] ++ (digitStr dt ts ++ (['p','x',';',' ','w','i','d','t','h',':',' '] ++ (digitStr dw ws ++ (['p','x',';',' ','h','e','i','g','h','t',':',' '] ++ (digitStr dh hs ++ (['p','x',';',' ','f','o','n','t','-','s','i','z','e',':',' '] ++ (digitStr df fs ++ ['p','x',';',' ','c','o','l','o','r',':',' ','r','e','d',';']))))))) = ' ' :: (['t','o','p',':'] ++ (' ' :: (digitStr dt ts ++ ('p' :: 'x' :: ';' :: ([' ','w','i','d','t','h',':',' '] ++ (digitStr dw ws ++ (['p','x',';',' ','h','e','i','g','h','t',':',' '] ++ (digitStr dh hs ++ (['p','x',';',' ','f','o','n','t','-','s','i','z','e',':',' '] ++ (digitStr df fs ++ ['p','x',';',' ','c','o','l','o','r',':',' ','r','e','d',';'])))))))))) from rfl,
      searchPx_skip (tryMatchPx_of_ne (by rfl))]
    exact searchPx_match 't' ['o','p',':'] _ (digitStr_ne_nil dt ts) digitStr_mem
  have hW : searchPx ("width" ++ ":").data (' ' :: ([' ','w','i','d','t','h',':',' '] ++ (digitStr dw ws ++ (['p','x',';',' ','h','e','i','g','h','t',':',' '] ++ (digitStr dh hs ++ (['p','x',';',' ','f','o','n','t','-','s','i','z','e',':',' '] ++ (digitStr df fs ++ ['p','x',';',' ','c','o','l','o','r',':',' ','r','e','d',';']))))))) = some ((digitsVal (digitStr dw ws) : ℤ), 1) := by
    rw [show ("width" ++ ":" : String).data = ['w','i','d','t','h',':'] from rfl,
      show ' ' :: ([' ','w','i','d','t','h',':',' '] ++ (digitStr dw ws ++ (['p','x',';',' ','h','e','i','g','h','t',':',' '] ++ (digitStr dh hs ++ (['p','x',';',' ','f','o','n','t','-','s','i','z','e',':',' '] ++ (digitStr df fs ++ ['p','x',';',' ','c','o','l','o','r',':',' ','r','e','d',';'])))))) = ' ' :: (' ' :: (['w','i','d','t','h',':'] ++ (' ' :: (digitStr dw ws ++ ('p' :: 'x' :: ';' :: ([' ','h','e','i','g','h','t',':',' '] ++ (digitStr dh hs ++ (['p','x',';',' ','f','o','n','t','-','s','i','z','e',':',' '] ++ (digitStr df fs ++ ['p','x',';',' ','c','o','l','o','r',':',' ','r','e','d',';']))))))))) from rfl,
      searchPx_skip (tryMatchPx_of_ne (by rfl)),
      searchPx_skip (tryMatchPx_of_ne (by rfl))]
    exact searchPx_match 'w' ['i','d','t','h',':'] _ (digitStr_ne_nil dw ws) digitStr_mem
  have hH : searchPx ("height" ++ ":").data (' ' :: (' ' :: ([' ','h','e','i','g','h','t',':',' '] ++ (digitStr dh hs ++ (['p','x',';',' ','f','o','n','t','-','s','i','z','e',':',' '] ++ (digitStr df fs ++ ['p','x',';',' ','c','o','l','o','r',':',' ','r','e','d',';'])))))) = some ((digitsVal (digitStr dh hs) : ℤ), 1) := by
    rw [show ("height" ++ ":" : String).data = ['h','e','i','g','h','t',':'] from rfl,
      show ' ' :: (' ' :: ([' ','h','e','i','g','h','t',':',' '] ++ (digitStr dh hs ++ (['p','x',';',' ','f','o','n','t','-','s','i','z','e',':',' '] ++ (digitStr df fs ++ ['p','x',';',' ','c','o','l','o','r',':',' ','r','e','d',';']))))) = ' ' :: (' ' :: (' ' :: (['h','e','i','g','h','t',':'] ++ (' ' :: (digitStr dh hs ++ ('p' :: 'x' :: ';' :: ([' ','f','o','n','t','-','s','i','z','e',':',' '] ++ (digitStr df fs ++ ['p','x',';',' ','c','o','l','o','r',':',' ','r','e','d',';'])))))))) from rfl,
      searchPx_skip (tryMatchPx_of_ne (by rfl)),
      searchPx_skip (tryMatchPx_of_ne (by rfl)),
      searchPx_skip (tryMatchPx_of_ne (by rfl))]
    exact searchPx_match 'h' ['e','i','g','h','t',':'] _ (digitStr_ne_nil dh hs) digitStr_mem
  have hFs : searchPx ("font-size:" : String).data (' ' :: (' ' :: (' ' :: ([' ','f','o','n','t','-','s','i','z','e',':',' '] ++ (digitStr df fs ++ ['p','x',';',' ','c','o','l','o','r',':',' ','r','e','d',';']))))) = some ((digitsVal (digitStr df fs) : ℤ), 1) := by
    rw [show ("font-size:" : String).data = ['f','o','n','t','-','s','i','z','e',':'] from rfl,
      show ' ' :: (' ' :: (' ' :: ([' ','f','o','n','t','-','s','i','z','e',':',' '] ++ (digitStr df fs ++ ['p','x',';',' ','c','o','l','o','r',':',' ','r','e','d',';'])))) = ' ' :: (' ' :: (' ' :: (' ' :: (['f','o','n','t','-','s','i','z','e',':'] ++ (' ' :: (digitStr df fs ++ ('p' :: 'x' :: ';' :: ([' ','c','o','l','o','r',':',' ','r','e','d',';'])))))))) from rfl,
      searchPx_skip (tryMatchPx_of_ne (by rfl)),
      searchPx_skip (tryMatchPx_of_ne (by rfl)),
      searchPx_skip (tryMatchPx_of_ne (by rfl)),
      searchPx_skip (tryMatchPx_of_ne (by rfl))]
    exact searchPx_match 'f' ['o','n','t','-','s','i','z','e',':'] _ (digitStr_ne_nil df fs) digitStr_mem
  have hLr : removePx ("left" ++ ":").data (['l','e','f','t',':',' '] ++ (digitStr dl ls ++ (['p','x',';',' ','t','o','p',':',' '] ++ (digitStr dt ts ++ (['p','x',';',' ','w','i','d','t','h',':',' '] ++ (digitStr dw ws ++ (['p','x',';',' ','h','e','i','g','h','t',':',' '] ++ (digitStr dh hs ++ (['p','x',';',' ','f','o','n','t','-','s','i','z','e',':',' '] ++ (digitStr df fs ++ ['p','x',';',' ','c','o','l','o','r',':',' ','r','e','d',';'])))))))))) = [' ','t','o','p',':',' '] ++ (digitStr dt ts ++ (['p','x',';',' ','w','i','d','t','h',':',' '] ++ (digitStr dw ws ++ (['p','x',';',' ','h','e','i','g','h','t',':',' '] ++ (digitStr dh hs ++ (['p','x',';',' ','f','o','n','t','-','s','i','z','e',':',' '] ++ (digitStr df fs ++ ['p','x',';',' ','c','o','l','o','r',':',' ','r','e','d',';']))))))) := by
    rw [show ("left" ++ ":" : String).data = ['l','e','f','t',':'] from rfl, removePx_eq,
      show (['l','e','f','t',':',' '] ++ (digitStr dl ls ++ (['p','x',';',' ','t','o','p',':',' '] ++ (digitStr dt ts ++ (['p','x',';',' ','w','i','d','t','h',':',' '] ++ (digitStr dw ws ++ (['p','x',';',' ','h','e','i','g','h','t',':',' '] ++ (digitStr dh hs ++ (['p','x',';',' ','f','o','n','t','-','s','i','z','e',':',' '] ++ (digitStr df fs ++ ['p','x',';',' ','c','o','l','o','r',':',' ','r','e','d',';'])))))))))).length = ((['l','e','f','t',':',' '] ++ (digitStr dl ls ++ (['p','x',';',' ','t','o','p',':',' '] ++ (digitStr dt ts ++ (['p','x',';',' ','w','i','d','t','h',':',' '] ++ (digitStr dw ws ++ (['p','x',';',' ','h','e','i','g','h','t',':',' '] ++ (digitStr dh hs ++ (['p','x',';',' ','f','o','n','t','-','s','i','z','e',':',' '] ++ (digitStr df fs ++ ['p','x',';',' ','c','o','l','o','r',':',' ','r','e','d',';'])))))))))).length - 1) + 1 from by
        simp [digitStr, List.length_append],
      removePxGo_consume htryL]
    exact removePxGo_id_of (noPxMatch_concrete_append (by decide)
      (noPxMatch_digits_append (by decide) digitStr_mem
      (noPxMatch_concrete_append (by decide)
      (noPxMatch_digits_append (by decide) digitStr_mem
      (noPxMatch_concrete_append (by decide)
      (noPxMatch_digits_append (by decide) digitStr_mem
      (noPxMatch_concrete_append (by decide)
      (noPxMatch_digits_append (by decide) digitStr_mem
      (noPxMatch_concrete (by decide)))))))))) _
  have hTr : removePx ("top" ++ ":").data ([' ','t','o','p',':',' '] ++ (digitStr dt ts ++ (['p','x',';',' ','w','i','d','t','h',':',' '] ++ (digitStr dw ws ++ (['p','x',';',' ','h','e','i','g','h','t',':',' '] ++ (digitStr dh hs ++ (['p','x',';',' ','f','o','n','t','-','s','i','z','e',':',' '] ++ (digitStr df fs ++ ['p','x',';',' ','c','o','l','o','r',':',' ','r','e','d',';'])))))))) = ' ' :: ([' ','w','i','d','t','h',':',' '] ++ (digitStr dw ws ++ (['p','x',';',' ','h','e','i','g','h','t',':',' '] ++ (digitStr dh hs ++ (['p','x',';',' ','f','o','n','t','-','s','i','z','e',':',' '] ++ (digitStr df fs ++ ['p','x',';',' ','c','o','l','o','r',':',' ','r','e','d',';'])))))) := by
    rw [show ("top" ++ ":" : String).data = ['t','o','p',':'] from rfl, removePx_eq,
      show ([' ','t','o','p',':',' '] ++ (digitStr dt ts ++ (['p','x',';',' ','w','i','d','t','h',':',' '] ++ (digitStr dw ws ++ (['p','x',';',' ','h','e','i','g','h','t',':',' '] ++ (digitStr dh hs ++ (['p','x',';',' ','f','o','n','t','-','s','i','z','e',':',' '] ++ (digitStr df fs ++ ['p','x',';',' ','c','o','l','o','r',':',' ','r','e','d',';'])))))))).length = (([' ','t','o','p',':',' '] ++ (digitStr dt ts ++ (['p','x',';',' ','w','i','d','t','h',':',' '] ++ (digitStr dw ws ++ (['p','x',';',' ','h','e','i','g','h','t',':',' '] ++ (digitStr dh hs ++ (['p','x',';',' ','f','o','n','t','-','s','i','z','e',':',' '] ++ (digitStr df fs ++ ['p','x',';',' ','c','o','l','o','r',':',' ','r','e','d',';'])))))))).length - 2) + 1 + 1 from by
        simp [digitStr, List.length_append],
      show [' ','t','o','p',':',' '] ++ (digitStr dt ts ++ (['p','x',';',' ','w','i','d','t','h',':',' '] ++ (digitStr dw ws ++ (['p','x',';',' ','h','e','i','g','h','t',':',' '] ++ (digitStr dh hs ++ (['p','x',';',' ','f','o','n','t','-','s','i','z','e',':',' '] ++ (digitStr df fs ++ ['p','x',';',' ','c','o','l','o','r',':',' ','r','e','d',';']))))))) = ' ' :: (['t','o','p',':'] ++ (' ' :: (digitStr dt ts ++ ('p' :: 'x' :: ';' :: ([' ','w','i','d','t','h',':',' '] ++ (digitStr dw ws ++ (['p','x',';',' ','h','e','i','g','h','t',':',' '] ++ (digitStr dh hs ++ (['p','x',';',' ','f','o','n','t','-','s','i','z','e',':',' '] ++ (digitStr df fs ++ ['p','x',';',' ','c','o','l','o','r',':',' ','r','e','d',';'])))))))))) from rfl,
      removePxGo_skip (tryMatchPx_of_ne (by rfl)),
      removePxGo_consume htryT]
    rw [removePxGo_id_of (noPxMatch_concrete_append (by decide)
      (noPxMatch_digits_append (by decide) digitStr_mem
      (noPxMatch_concrete_append (by decide)
      (noPxMatch_digits_append (by decide) digitStr_mem
      (noPxMatch_concrete_append (by decide)
      (noPxMatch_digits_append (by decide) digitStr_mem
      (noPxMatch_concrete (by decide)))))))) _]
  have hWr : removePx ("width" ++ ":").data (' ' :: ([' ','w','i','d','t','h',':',' '] ++ (digitStr dw ws ++ (['p','x',';',' ','h','e','i','g','h','t',':',' '] ++ (digitStr dh hs ++ (['p','x',';',' ','f','o','n','t','-','s','i','z','e',':',' '] ++ (digitStr df fs ++ ['p','x',';',' ','c','o','l','o','r',':',' ','r','e','d',';']))))))) = ' ' :: (' ' :: ([' ','h','e','i','g','h','t',':',' '] ++ (digitStr dh hs ++ (['p','x',';',' ','f','o','n','t','-','s','i','z','e',':',' '] ++ (digitStr df fs ++ ['p','x',';',' ','c','o','l','o','r',':',' ','r','e','d',';']))))) := by
    rw [show ("width" ++ ":" : String).data = ['w','i','d','t','h',':'] from rfl, removePx_eq,
      show (' ' :: ([' ','w','i','d','t','h',':',' '] ++ (digitStr dw ws ++ (['p','x',';',' ','h','e','i','g','h','t',':',' '] ++ (digitStr dh hs ++ (['p','x',';',' ','f','o','n','t','-','s','i','z','e',':',' '] ++ (digitStr df fs ++ ['p','x',';',' ','c','o','l','o','r',':',' ','r','e','d',';']))))))).length = ((' ' :: ([' ','w','i','d','t','h',':',' '] ++ (digitStr dw ws ++ (['p','x',';',' ','h','e','i','g','h','t',':',' '] ++ (digitStr dh hs ++ (['p','x',';',' ','f','o','n','t','-','s','i','z','e',':',' '] ++ (digitStr df fs ++ ['p','x',';',' ','c','o','l','o','r',':',' ','r','e','d',';']))))))).length - 3) + 1 + 1 + 1 from by
        simp [digitStr, List.length_append],
      show ' ' :: ([' ','w','i','d','t','h',':',' '] ++ (digitStr dw ws ++ (['p','x',';',' ','h','e','i','g','h','t',':',' '] ++ (digitStr dh hs ++ (['p','x',';',' ','f','o','n','t','-','s','i','z','e',':',' '] ++ (digitStr df fs ++ ['p','x',';',' ','c','o','l','o','r',':',' ','r','e','d',';'])))))) = ' ' :: (' ' :: (['w','i','d','t','h',':'] ++ (' ' :: (digitStr dw ws ++ ('p' :: 'x' :: ';' :: ([' ','h','e','i','g','h','t',':',' '] ++ (digitStr dh hs ++ (['p','x',';',' ','f','o','n','t','-','s','i','z','e',':',' '] ++ (digitStr df fs ++ ['p','x',';',' ','c','o','l','o','r',':',' ','r','e','d',';']))))))))) from rfl,
      removePxGo_skip (tryMatchPx_of_ne (by rfl)),
      removePxGo_skip (tryMatchPx_of_ne (by rfl)),
      removePxGo_consume htryW]
    rw [removePxGo_id_of (noPxMatch_concrete_append (by decide)
      (noPxMatch_digits_append (by decide) digitStr_mem
      (noPxMatch_concrete_append (by decide)
      (noPxMatch_digits_append (by decide) digitStr_mem
      (noPxMatch_concrete (by decide)))))) _]
  have hHr : removePx ("height" ++ ":").data (' ' :: (' ' :: ([' ','h','e','i','g','h','t',':',' '] ++ (digitStr dh hs ++ (['p','x',';',' ','f','o','n','t','-','s','i','z','e',':',' '] ++ (digitStr df fs ++ ['p','x',';',' ','c','o','l','o','r',':',' ','r','e','d',';'])))))) = ' ' :: (' ' :: (' ' :: ([' ','f','o','n','t','-','s','i','z','e',':',' '] ++ (digitStr df fs ++ ['p','x',';',' ','c','o','l','o','r',':',' ','r','e','d',';'])))) := by
    rw [show ("height" ++ ":" : String).data = ['h','e','i','g','h','t',':'] from rfl, removePx_eq,
      show (' ' :: (' ' :: ([' ','h','e','i','g','h','t',':',' '] ++ (digitStr dh hs ++ (['p','x',';',' ','f','o','n','t','-','s','i','z','e',':',' '] ++ (digitStr df fs ++ ['p','x',';',' ','c','o','l','o','r',':',' ','r','e','d',';'])))))).length = ((' ' :: (' ' :: ([' ','h','e','i','g','h','t',':',' '] ++ (digitStr dh hs ++ (['p','x',';',' ','f','o','n','t','-','s','i','z','e',':',' '] ++ (digitStr df fs ++ ['p','x',';',' ','c','o','l','o','r',':',' ','r','e','d',';'])))))).length - 4) + 1 + 1 + 1 + 1 from by
        simp [digitStr, List.length_append],
      show ' ' :: (' ' :: ([' ','h','e','i','g','h','t',':',' '] ++ (digitStr dh hs ++ (['p','x',';',' ','f','o','n','t','-','s','i','z','e',':',' '] ++ (digitStr df fs ++ ['p','x',';',' ','c','o','l','o','r',':',' ','r','e','d',';']))))) = ' ' :: (' ' :: (' ' :: (['h','e','i','g','h','t',':'] ++ (' ' :: (digitStr dh hs ++ ('p' :: 'x' :: ';' :: ([' ','f','o','n','t','-','s','i','z','e',':',' '] ++ (digitStr df fs ++ ['p','x',';',' ','c','o','l','o','r',':',' ','r','e','d',';'])))))))) from rfl,
      removePxGo_skip (tryMatchPx_of_ne (by rfl)),
      removePxGo_skip (tryMatchPx_of_ne (by rfl)),
      removePxGo_skip (tryMatchPx_of_ne (by rfl)),
      removePxGo_consume htryH]
    rw [removePxGo_id_of (noPxMatch_concrete_append (by decide)
      (noPxMatch_digits_append (by decide) digitStr_mem
      (noPxMatch_concrete (by decide)))) _]
  have hFr : removePx ("font-size:" : String).data (' ' :: (' ' :: (' ' :: ([' ','f','o','n','t','-','s','i','z','e',':',' '] ++ (digitStr df fs ++ ['p','x',';',' ','c','o','l','o','r',':',' ','r','e','d',';']))))) = ' ' :: (' ' :: (' ' :: (' ' :: ([' ','c','o','l','o','r',':',' ','r','e','d',';'])))) := by
    rw [show ("font-size:" : String).data = ['f','o','n','t','-','s','i','z','e',':'] from rfl,
      removePx_eq,
      show (' ' :: (' ' :: (' ' :: ([' ','f','o','n','t','-','s','i','z','e',':',' '] ++ (digitStr df fs ++ ['p','x',';',' ','c','o','l','o','r',':',' ','r','e','d',';']))))).length = ((' ' :: (' ' :: (' ' :: ([' ','f','o','n','t','-','s','i','z','e',':',' '] ++ (digitStr df fs ++ ['p','x',';',' ','c','o','l','o','r',':',' ','r','e','d',';']))))).length - 5) + 1 + 1 + 1 + 1 + 1 from by
        simp [digitStr, List.length_append],
      show ' ' :: (' ' :: (' ' :: ([' ','f','o','n','t','-','s','i','z','e',':',' '] ++ (digitStr df fs ++ ['p','x',';',' ','c','o','l','o','r',':',' ','r','e','d',';'])))) = ' ' :: (' ' :: (' ' :: (' ' :: (['f','o','n','t','-','s','i','z','e',':'] ++ (' ' :: (digitStr df fs ++ ('p' :: 'x' :: ';' :: ([' ','c','o','l','o','r',':',' ','r','e','d',';'])))))))) from rfl,
      removePxGo_skip (tryMatchPx_of_ne (by rfl)),
      removePxGo_skip (tryMatchPx_of_ne (by rfl)),
      removePxGo_skip (tryMatchPx_of_ne (by rfl)),
      removePxGo_skip (tryMatchPx_of_ne (by rfl)),
      removePxGo_consume htryF]
    rw [removePxGo_id_of (noPxMatch_concrete (by decide)) _]
  rw [convertStyle_decomp, data_mk, List.foldl_cons, c5Step_some_one _ _ hL,
    if_pos (Or.inl rfl : ("left" : String) = "left" ∨ ("left" : String) = "width"), hLr,
    List.foldl_cons, c5Step_some_one _ _ hT,
    if_neg (by decide : ¬(("top" : String) = "left" ∨ ("top" : String) = "width")), hTr,
    List.foldl_cons, c5Step_some_one _ _ hW,
    if_pos (Or.inr rfl : ("width" : String) = "left" ∨ ("width" : String) = "width"), hWr,
    List.foldl_cons, c5Step_some_one _ _ hH,
    if_neg (by decide : ¬(("height" : String) = "left" ∨ ("height" : String) = "width")), hHr,
    List.foldl_nil]
  rw [c5Post_font_one hFs, hFr]
  rw [show ((((' ' :: (' ' :: (' ' :: (' ' :: ([' ','c','o','l','o','r',':',' ','r','e','d',';']))))).splitOn ';').map (fun p => pyStrip (String.mk p))).filter
      (fun p => p ≠ "") : List String) = ["color: red"] from rfl]
  simp only [List.nil_append, List.singleton_append, List.cons_append, List.append_assoc]
  rw [intercalate_six]
  have hstrip : pyStrip ("left" ++ ": " ++ fmt4 ((digitsVal (digitStr dl ls) : ℤ) * 100) ow ++ "%;" ++ "; " ++
      ("top" ++ ": " ++ fmt4 ((digitsVal (digitStr dt ts) : ℤ) * 100) oh ++ "%;") ++ "; " ++
      ("width" ++ ": " ++ fmt4 ((digitsVal (digitStr dw ws) : ℤ) * 100) ow ++ "%;") ++ "; " ++
      ("height" ++ ": " ++ fmt4 ((digitsVal (digitStr dh hs) : ℤ) * 100) oh ++ "%;") ++ "; " ++
      ("font-size: " ++ fmt4 ((digitsVal (digitStr df fs) : ℤ) * 100) ow ++ "vw;") ++ "; " ++ "color: red")
      = "left" ++ ": " ++ fmt4 ((digitsVal (digitStr dl ls) : ℤ) * 100) ow ++ "%;" ++ "; " ++
      ("top" ++ ": " ++ fmt4 ((digitsVal (digitStr dt ts) : ℤ) * 100) oh ++ "%;") ++ "; " ++
      ("width" ++ ": " ++ fmt4 ((digitsVal (digitStr dw ws) : ℤ) * 100) ow ++ "%;") ++ "; " ++
      ("height" ++ ": " ++ fmt4 ((digitsVal (digitStr dh hs) : ℤ) * 100) oh ++ "%;") ++ "; " ++
      ("font-size: " ++ fmt4 ((digitsVal (digitStr df fs) : ℤ) * 100) ow ++ "vw;") ++ "; " ++ "color: red" := by
    refine pyStrip_id ?_ ?_
    · simp only [String.data_append]
      rfl
    · simp only [String.data_append, List.reverse_append]
      rfl
  rw [hstrip]
  refine String.ext ?_
  simp only [String.data_append, List.append_assoc]
  rfl

/-- The conversion on an overlay style carrying a `left` and a `font-size`
pixel declaration. -/
theorem c5_conv_two (dl df : Fin 10) (ls fs : List (Fin 10)) (ow oh : ℤ) :
    convertStyle (String.mk ("left: ".data ++ (digitStr dl ls ++
        ("px; font-size: ".data ++ (digitStr df fs ++ "px;".data))))) ow oh
      = "left: " ++ (fmt4 ((digitsVal (digitStr dl ls) : ℤ) * 100) ow ++
        ("%;; font-size: " ++ (fmt4 ((digitsVal (digitStr df fs) : ℤ) * 100) ow ++ "vw;"))) := by
  rw [show ("left: " : String).data = ['l','e','f','t',':',' '] from rfl,
    show ("px; font-size: " : String).data = ['p','x',';',' ','f','o','n','t','-','s','i','z','e',':',' '] from rfl,
    show ("px;" : String).data = ['p','x',';'] from rfl]
  have htryL : tryMatchPx ['l','e','f','t',':'] (['l','e','f','t',':',' '] ++ (digitStr dl ls ++ (['p','x',';',' ','f','o','n','t','-','s','i','z','e',':',' '] ++ (digitStr df fs ++ ['p','x',';']))))
      = some (((digitsVal (digitStr dl ls) : ℤ), 1), [' ','f','o','n','t','-','s','i','z','e',':',' '] ++ (digitStr df fs ++ ['p','x',';'])) := by
    rw [show ['l','e','f','t',':',' '] ++ (digitStr dl ls ++ (['p','x',';',' ','f','o','n','t','-','s','i','z','e',':',' '] ++ (digitStr df fs ++ ['p','x',';']))) = ['l','e','f','t',':'] ++ (' ' :: (digitStr dl ls ++ ('p' :: 'x' :: ';' :: ([' ','f','o','n','t','-','s','i','z','e',':',' '] ++ (digitStr df fs ++ ['p','x',';']))))) from rfl]
    exact tryMatchPx_match _ _ (digitStr_ne_nil dl ls) digitStr_mem
  have htryF : tryMatchPx ['f','o','n','t','-','s','i','z','e',':']
      (['f','o','n','t','-','s','i','z','e',':'] ++ (' ' :: (digitStr df fs ++ ('p' :: 'x' :: ';' :: ([] : List Char)))))
      = some (((digitsVal (digitStr df fs) : ℤ), 1), ([] : List Char)) :=
    tryMatchPx_match _ _ (digitStr_ne_nil df fs) digitStr_mem
  have hL : searchPx ("left" ++ ":").data (['l','e','f','t',':',' '] ++ (digitStr dl ls ++ (['p','x',';',' ','f','o','n','t','-','s','i','z','e',':',' '] ++ (digitStr df fs ++ ['p','x',';'])))) = some ((digitsVal (digitStr dl ls) : ℤ), 1) := by
    rw [show ("left" ++ ":" : String).data = ['l','e','f','t',':'] from rfl,
      show ['l','e','f','t',':',' '] ++ (digitStr dl ls ++ (['p','x',';',' ','f','o','n','t','-','s','i','z','e',':',' '] ++ (digitStr df fs ++ ['p','x',';']))) = ['l','e','f','t',':'] ++ (' ' :: (digitStr dl ls ++ ('p' :: 'x' :: ';' :: ([' ','f','o','n','t','-','s','i','z','e',':',' '] ++ (digitStr df fs ++ ['p','x',';']))))) from rfl]
    exact searchPx_match 'l' ['e','f','t',':'] _ (digitStr_ne_nil dl ls) digitStr_mem
  have hLr : removePx ("left" ++ ":").data (['l','e','f','t',':',' '] ++ (digitStr dl ls ++ (['p','x',';',' ','f','o','n','t','-','s','i','z','e',':',' '] ++ (digitStr df fs ++ ['p','x',';'])))) = [' ','f','o','n','t','-','s','i','z','e',':',' '] ++ (digitStr df fs ++ ['p','x',';']) := by
    rw [show ("left" ++ ":" : String).data = ['l','e','f','t',':'] from rfl, removePx_eq,
      show (['l','e','f','t',':',' '] ++ (digitStr dl ls ++ (['p','x',';',' ','f','o','n','t','-','s','i','z','e',':',' '] ++ (digitStr df fs ++ ['p','x',';'])))).length = ((['l','e','f','t',':',' '] ++ (digitStr dl ls ++ (['p','x',';',' ','f','o','n','t','-','s','i','z','e',':',' '] ++ (digitStr df fs ++ ['p','x',';'])))).length - 1) + 1 from by
        simp [digitStr, List.length_append],
      removePxGo_consume htryL]
    exact removePxGo_id_of (noPxMatch_concrete_append (by decide)
      (noPxMatch_digits_append (by decide) digitStr_mem
      (noPxMatch_concrete (by decide)))) _
  have hT : searchPx ("top" ++ ":").data ([' ','f','o','n','t','-','s','i','z','e',':',' '] ++ (digitStr df fs ++ ['p','x',';'])) = none := by
    rw [show ("top" ++ ":" : String).data = ['t','o','p',':'] from rfl]
    exact searchPx_none_of (noPxMatch_concrete_append (by decide)
      (noPxMatch_digits_append (by decide) digitStr_mem (noPxMatch_concrete (by decide))))
  have hW : searchPx ("width" ++ ":").data ([' ','f','o','n','t','-','s','i','z','e',':',' '] ++ (digitStr df fs ++ ['p','x',';'])) = none := by
    rw [show ("width" ++ ":" : String).data = ['w','i','d','t','h',':'] from rfl]
    exact searchPx_none_of (noPxMatch_concrete_append (by decide)
      (noPxMatch_digits_append (by decide) digitStr_mem (noPxMatch_concrete (by decide))))
  have hH : searchPx ("height" ++ ":").data ([' ','f','o','n','t','-','s','i','z','e',':',' '] ++ (digitStr df fs ++ ['p','x',';'])) = none := by
    rw [show ("height" ++ ":" : String).data = ['h','e','i','g','h','t',':'] from rfl]
    exact searchPx_none_of (noPxMatch_concrete_append (by decide)
      (noPxMatch_digits_append (by decide) digitStr_mem (noPxMatch_concrete (by decide))))
  have hFs : searchPx ("font-size:" : String).data ([' ','f','o','n','t','-','s','i','z','e',':',' '] ++ (digitStr df fs ++ ['p','x',';'])) = some ((digitsVal (digitStr df fs) : ℤ), 1) := by
    rw [show ("font-size:" : String).data = ['f','o','n','t','-','s','i','z','e',':'] from rfl,
      show [' ','f','o','n','t','-','s','i','z','e',':',' '] ++ (digitStr df fs ++ ['p','x',';']) = ' ' :: (['f','o','n','t','-','s','i','z','e',':'] ++ (' ' :: (digitStr df fs ++ ('p' :: 'x' :: ';' :: ([] : List Char))))) from rfl,
      searchPx_skip (tryMatchPx_of_ne (by rfl))]
    exact searchPx_match 'f' ['o','n','t','-','s','i','z','e',':'] _ (digitStr_ne_nil df fs) digitStr_mem
  have hFr : removePx ("font-size:" : String).data ([' ','f','o','n','t','-','s','i','z','e',':',' '] ++ (digitStr df fs ++ ['p','x',';'])) = [' '] := by
    rw [show ("font-size:" : String).data = ['f','o','n','t','-','s','i','z','e',':'] from rfl,
      removePx_eq,
      show ([' ','f','o','n','t','-','s','i','z','e',':',' '] ++ (digitStr df fs ++ ['p','x',';'])).length = (([' ','f','o','n','t','-','s','i','z','e',':',' '] ++ (digitStr df fs ++ ['p','x',';'])).length - 2) + 1 + 1 from by
        simp [digitStr, List.length_append],
      show [' ','f','o','n','t','-','s','i','z','e',':',' '] ++ (digitStr df fs ++ ['p','x',';']) = ' ' :: (['f','o','n','t','-','s','i','z','e',':'] ++ (' ' :: (digitStr df fs ++ ('p' :: 'x' :: ';' :: ([] : List Char))))) from rfl,
      removePxGo_skip (tryMatchPx_of_ne (by rfl)),
      removePxGo_consume htryF,
      removePxGo_nil]
  rw [convertStyle_decomp, data_mk, List.foldl_cons, c5Step_some_one _ _ hL,
    if_pos (Or.inl rfl : ("left" : String) = "left" ∨ ("left" : String) = "width"), hLr,
    List.foldl_cons, c5Step_none _ _ hT, List.foldl_cons, c5Step_none _ _ hW,
    List.foldl_cons, c5Step_none _ _ hH, List.foldl_nil]
  rw [c5Post_font_one hFs, hFr]
  rw [show ((([' '] : List Char).splitOn ';').map (fun p => pyStrip (String.mk p))).filter
      (fun p => p ≠ "") = ([] : List String) from rfl]
  simp only [List.nil_append, List.append_nil, List.singleton_append, List.cons_append]
  rw [intercalate_pair]
  have hstrip : pyStrip ("left" ++ ": " ++ fmt4 ((digitsVal (digitStr dl ls) : ℤ) * 100) ow ++ "%;" ++ "; " ++
      ("font-size: " ++ fmt4 ((digitsVal (digitStr df fs) : ℤ) * 100) ow ++ "vw;"))
      = "left" ++ ": " ++ fmt4 ((digitsVal (digitStr dl ls) : ℤ) * 100) ow ++ "%;" ++ "; " ++
      ("font-size: " ++ fmt4 ((digitsVal (digitStr df fs) : ℤ) * 100) ow ++ "vw;") := by
    refine pyStrip_id ?_ ?_
    · simp only [String.data_append]
      rfl
    · simp only [String.data_append, List.reverse_append]
      rfl
  rw [hstrip]
  refine String.ext ?_
  simp only [String.data_append, List.append_assoc]
  rfl

theorem rewriteOverlay_eq (html : String) (ow oh : ℤ) :
    rewriteOverlay html ow oh
      = String.mk (rewriteOverlayGo ow oh html.data.length html.data) := rfl

/-- One matched overlay element inside a document whose other content (a
styled `<p>` element with its own pixel declaration, and the element body)
is untouched, while the matched inline style is converted. -/
theorem c5_rewrite_elem (dl df : Fin 10) (ls fs : List (Fin 10)) (ow oh : ℤ) :
    rewriteOverlay (String.mk
        ("<p style=\"top: 7px;\">A</p><div class=\"overlay-text\" style=\"left: ".data ++
          (digitStr dl ls ++ ("px; font-size: ".data ++
          (digitStr df fs ++ "px;\">Hi</div>".data))))) ow oh
      = String.mk
        ("<p style=\"top: 7px;\">A</p><div class=\"overlay-text\" style=\"left: ".data ++
          ((fmt4 ((digitsVal (digitStr dl ls) : ℤ) * 100) ow).data ++ ("%;; font-size: ".data ++
          ((fmt4 ((digitsVal (digitStr df fs) : ℤ) * 100) ow).data ++ "vw;\">Hi</div>".data)))) := by
  have hq1 : ∀ x ∈ (['l','e','f','t',':',' '] : List Char), x ≠ '"' := by decide
  have hq2 : ∀ x ∈ (['p','x',';',' ','f','o','n','t','-','s','i','z','e',':',' '] : List Char), x ≠ '"' := by decide
  have hq3 : ∀ x ∈ (['p','x',';'] : List Char), x ≠ '"' := by decide
  have hq : ∀ x ∈ (['l','e','f','t',':',' '] ++ (digitStr dl ls ++ (['p','x',';',' ','f','o','n','t','-','s','i','z','e',':',' '] ++ (digitStr df fs ++ ['p','x',';'])))), x ≠ '"' := by
    intro x hx
    rcases List.mem_append.mp hx with h | h
    · exact hq1 x h
    · rcases List.mem_append.mp h with h | h
      · exact fun e => (by decide : ('"' : Char) ∉ decimalDigits) (e ▸ digitStr_mem x h)
      · rcases List.mem_append.mp h with h | h
        · exact hq2 x h
        · rcases List.mem_append.mp h with h | h
          · exact fun e => (by decide : ('"' : Char) ∉ decimalDigits) (e ▸ digitStr_mem x h)
          · exact hq3 x h
  have helem : tryMatchElem ("class=\"overlay-text\" style=\"".data ++ ((['l','e','f','t',':',' '] ++ (digitStr dl ls ++ (['p','x',';',' ','f','o','n','t','-','s','i','z','e',':',' '] ++ (digitStr df fs ++ ['p','x',';'])))) ++ ('"' :: ['>','H','i','<','/','d','i','v','>']))) = some ("overlay-text".data, ['l','e','f','t',':',' '] ++ (digitStr dl ls ++ (['p','x',';',' ','f','o','n','t','-','s','i','z','e',':',' '] ++ (digitStr df fs ++ ['p','x',';']))), ['>','H','i','<','/','d','i','v','>']) :=
    tryMatchElem_overlay hq
  have hpre : ∀ x ∈ (['<','p',' ','s','t','y','l','e','=','"','t','o','p',':',' ','7','p','x',';','"','>','A','<','/','p','>','<','d','i','v',' '] : List Char), ('c' == x) = false := by decide
  have hae : NoElemMatch (['>','H','i','<','/','d','i','v','>'] : List Char) := noElemMatch_concrete (by decide)
  have hconv : convertStyle (String.mk (['l','e','f','t',':',' '] ++ (digitStr dl ls ++ (['p','x',';',' ','f','o','n','t','-','s','i','z','e',':',' '] ++ (digitStr df fs ++ ['p','x',';']))))) ow oh
      = "left: " ++ (fmt4 ((digitsVal (digitStr dl ls) : ℤ) * 100) ow ++
        ("%;; font-size: " ++ (fmt4 ((digitsVal (digitStr df fs) : ℤ) * 100) ow ++ "vw;"))) := by
    rw [show (String.mk (['l','e','f','t',':',' '] ++ (digitStr dl ls ++ (['p','x',';',' ','f','o','n','t','-','s','i','z','e',':',' '] ++ (digitStr df fs ++ ['p','x',';'])))))
        = String.mk ("left: ".data ++ (digitStr dl ls ++
            ("px; font-size: ".data ++ (digitStr df fs ++ "px;".data)))) from rfl]
    exact c5_conv_two dl df ls fs ow oh
  rw [rewriteOverlay_eq, data_mk,
    show ("<p style=\"top: 7px;\">A</p><div class=\"overlay-text\" style=\"left: " : String).data ++
        (digitStr dl ls ++ ("px; font-size: ".data ++ (digitStr df fs ++ "px;\">Hi</div>".data)))
      = ['<','p',' ','s','t','y','l','e','=','"','t','o','p',':',' ','7','p','x',';','"','>','A','<','/','p','>','<','d','i','v',' '] ++ ("class=\"overlay-text\" style=\"".data ++ ((['l','e','f','t',':',' '] ++ (digitStr dl ls ++ (['p','x',';',' ','f','o','n','t','-','s','i','z','e',':',' '] ++ (digitStr df fs ++ ['p','x',';'])))) ++ ('"' :: ['>','H','i','<','/','d','i','v','>']))) from by
        simp only [List.append_assoc]
        rfl,
    List.length_append,
    rewriteOverlayGo_skip_batch hpre,
    show (("class=\"overlay-text\" style=\"".data ++ ((['l','e','f','t',':',' '] ++ (digitStr dl ls ++ (['p','x',';',' ','f','o','n','t','-','s','i','z','e',':',' '] ++ (digitStr df fs ++ ['p','x',';'])))) ++ ('"' :: ['>','H','i','<','/','d','i','v','>'])))).length = ((("class=\"overlay-text\" style=\"".data ++ ((['l','e','f','t',':',' '] ++ (digitStr dl ls ++ (['p','x',';',' ','f','o','n','t','-','s','i','z','e',':',' '] ++ (digitStr df fs ++ ['p','x',';'])))) ++ ('"' :: ['>','H','i','<','/','d','i','v','>'])))).length - 1) + 1 from by
      simp [digitStr, List.length_append],
    rewriteOverlayGo_consume helem,
    rewriteOverlayGo_id_of hae,
    hconv]
  refine congrArg String.mk ?_
  simp only [String.data_append, List.append_assoc]
  rfl

/-! ## Claim theorems -/

/-- C1 (counterexample): an OCR box with `height = 200`, `width = 10` and
over-long text (here 30 characters) does **not** yield a font size of 80 as
the claim states; the scaling branch shrinks the font below the lower clamp,
so the emitted font size is exactly 10. -/
theorem c1_font_size_counterexample :
    fontSize 200 10 30 ≠ 80 ∧ fontSize 200 10 30 = 10 := by
  constructor <;> norm_num [fontSize, fontSizeUnclamped, pyMaxQ, pyMinQ]

/-- C1 (amended): the Phase-4 font-size computation follows the claimed
formula exactly (for the non-negative box heights OCR produces) and the
emitted value is always the formula's value clamped into `[10, 80]`; a box
with `height = 1, width = 1000` yields exactly 10 for every text length, and
a box with `height = 200, width = 10` with over-long text (length at least 2)
yields exactly 10 — the lower clamp, not the claimed 80. -/
theorem c1_font_size_policy :
    (∀ (height width : ℤ) (textLen : ℕ), 0 ≤ height →
      fontSize height width textLen = specFontSize height width textLen) ∧
    (∀ (height width : ℤ) (textLen : ℕ),
      10 ≤ fontSize height width textLen ∧ fontSize height width textLen ≤ 80) ∧
    (∀ textLen : ℕ, 2 ≤ textLen → fontSize 200 10 textLen = 10) ∧
    (∀ textLen : ℕ, fontSize 1 1000 textLen = 10) := by
  refine ⟨?_, ?_, ?_, ?_⟩
  · intro height width textLen hh
    have hq : (0:ℚ) ≤ (height:ℚ) := by exact_mod_cast hh
    have hb : (0:ℚ) ≤ (height : ℚ) * 0.9 * 0.6 := by positivity
    have hd0 : (0:ℚ) ≤ (textLen : ℚ) * ((height : ℚ) * 0.9) * 0.6 :=
      mul_nonneg (mul_nonneg (Nat.cast_nonneg _) (by positivity)) (by norm_num)
    simp only [fontSize, specFontSize, fontSizeUnclamped, specFontSizeUnclamped]
    congr 1
    congr 1
    rcases eq_or_lt_of_le hb with hb0 | hbpos
    · have hbz : (height : ℚ) * 0.9 * 0.6 = 0 := hb0.symm
      have hB : (height : ℚ) * 0.9 = 0 := by
        rcases mul_eq_zero.mp hbz with h | h
        · exact h
        · norm_num at h
      have hd : (textLen : ℚ) * ((height : ℚ) * 0.9) * 0.6 = 0 := by
        rw [hB]; ring
      rw [if_neg (show ¬ ((height:ℚ) * 0.9 * 0.6 > 0) by rw [hbz]; exact lt_irrefl 0),
          if_pos hbz,
          if_neg (show ¬ ((textLen:ℚ) * ((height:ℚ) * 0.9) * 0.6 > 0) by
            rw [hd]; exact lt_irrefl 0),
          if_pos hd]
    · have hbz : ¬ ((height : ℚ) * 0.9 * 0.6 = 0) := ne_of_gt hbpos
      rw [if_pos hbpos, if_neg hbz]
      rcases eq_or_lt_of_le hd0 with hdz | hdpos
      · rw [if_neg (show ¬ ((textLen:ℚ) * ((height:ℚ) * 0.9) * 0.6 > 0) by
            rw [← hdz]; exact lt_irrefl 0),
          if_pos hdz.symm]
      · rw [if_pos hdpos, if_neg (ne_of_gt hdpos)]
  · intro height width textLen
    unfold fontSize pyMaxQ pyMinQ
    by_cases h80 : (80:ℚ) ≤ fontSizeUnclamped height width textLen
    · rw [if_pos h80]
      norm_num
    · rw [if_neg h80]
      by_cases h10 : fontSizeUnclamped height width textLen ≤ 10
      · rw [if_pos h10]
        norm_num
      · rw [if_neg h10]
        constructor <;> linarith
  · intro textLen h2
    have hL : (2:ℚ) ≤ (textLen : ℚ) := by exact_mod_cast h2
    have hLpos : (0:ℚ) < (textLen : ℚ) := by linarith
    have hne : (textLen:ℚ) ≠ 0 := ne_of_gt hLpos
    have hU : ((200:ℤ):ℚ) * 0.9 * (((10:ℤ):ℚ) / ((textLen:ℚ) * (((200:ℤ):ℚ) * 0.9) * 0.6)) * 0.9
        = 15 / (textLen:ℚ) := by
      push_cast
      field_simp
      ring
    have hsmall : 15 / (textLen:ℚ) ≤ 15 / 2 :=
      div_le_div_of_nonneg_left (by norm_num) (by norm_num) hL
    simp only [fontSize, fontSizeUnclamped, pyMaxQ, pyMinQ]
    rw [if_pos (show ((200:ℤ):ℚ) * 0.9 * 0.6 > 0 by norm_num)]
    rw [if_pos (show (textLen:ℚ) > ((10:ℤ):ℚ) / (((200:ℤ):ℚ) * 0.9 * 0.6) * 1.2 ∧
        ((10:ℤ):ℚ) / (((200:ℤ):ℚ) * 0.9 * 0.6) > 0 from
      ⟨by norm_num; linarith, by norm_num⟩)]
    rw [if_pos (show (textLen:ℚ) * (((200:ℤ):ℚ) * 0.9) * 0.6 > 0 from
      mul_pos (mul_pos hLpos (by norm_num)) (by norm_num))]
    rw [hU]
    rw [if_neg (show ¬ (80:ℚ) ≤ 15 / (textLen:ℚ) by linarith)]
    rw [if_pos (show 15 / (textLen:ℚ) ≤ 10 by linarith)]
  · intro textLen
    simp only [fontSize, fontSizeUnclamped, pyMaxQ, pyMinQ]
    rw [if_pos (show ((1:ℤ):ℚ) * 0.9 * 0.6 > 0 by norm_num)]
    by_cases hc : (textLen:ℚ) > ((1000:ℤ):ℚ) / (((1:ℤ):ℚ) * 0.9 * 0.6) * 1.2 ∧
        ((1000:ℤ):ℚ) / (((1:ℤ):ℚ) * 0.9 * 0.6) > 0
    · rw [if_pos hc]
      have hL : (2000:ℚ) ≤ (textLen:ℚ) := by
        have h1 := hc.1
        norm_num at h1
        linarith
      have hLpos : (0:ℚ) < (textLen:ℚ) := by linarith
      have hne : (textLen:ℚ) ≠ 0 := ne_of_gt hLpos
      rw [if_pos (show (textLen:ℚ) * (((1:ℤ):ℚ) * 0.9) * 0.6 > 0 from
        mul_pos (mul_pos hLpos (by norm_num)) (by norm_num))]
      have hU : ((1:ℤ):ℚ) * 0.9 * (((1000:ℤ):ℚ) / ((textLen:ℚ) * (((1:ℤ):ℚ) * 0.9) * 0.6)) * 0.9
          = 1500 / (textLen:ℚ) := by
        push_cast
        field_simp
        ring
      rw [hU]
      have hsmall : 1500 / (textLen:ℚ) ≤ 1 := by
        rw [div_le_one hLpos]; linarith
      rw [if_neg (show ¬ (80:ℚ) ≤ 1500 / (textLen:ℚ) by linarith)]
      rw [if_pos (show 1500 / (textLen:ℚ) ≤ 10 by linarith)]
    · rw [if_neg hc]
      norm_num

/-- C1 (witness): the amended policy theorem applied at concrete inputs. -/
theorem c1_font_size_policy_witness :
    fontSize 5 7 3 = specFontSize 5 7 3 ∧ fontSize 200 10 30 = 10 :=
  ⟨c1_font_size_policy.1 5 7 3 (by norm_num),
   c1_font_size_policy.2.2.1 30 (by norm_num)⟩

/-- C2: `extract_text_positions` returns exactly the detections with
confidence strictly above 0.6 and non-blank stripped text, each reduced to
its axis-aligned bounding rectangle with the stripped text stored, sorted
ascending by the key `(y, x)`. -/
theorem c2_extract_text_positions (results : List RawDetection) :
    (extract_text_positions results).Perm (results.filterMap reduceDetection?) ∧
    (extract_text_positions results).Pairwise
      (fun a b => a.y < b.y ∨ (a.y = b.y ∧ a.x ≤ b.x)) ∧
    (∀ b, b ∈ extract_text_positions results ↔
      ∃ d ∈ results, reduceDetection? d = some b) ∧
    (∀ d : RawDetection, reduceDetection? d =
      if d.conf > 0.6 ∧ pyStrip d.text ≠ "" then
        some { text := pyStrip d.text,
               x := min (min d.c1.1 d.c2.1) (min d.c3.1 d.c4.1),
               y := min (min d.c1.2 d.c2.2) (min d.c3.2 d.c4.2),
               width := max (max d.c1.1 d.c2.1) (max d.c3.1 d.c4.1)
                 - min (min d.c1.1 d.c2.1) (min d.c3.1 d.c4.1),
               height := max (max d.c1.2 d.c2.2) (max d.c3.2 d.c4.2)
                 - min (min d.c1.2 d.c2.2) (min d.c3.2 d.c4.2),
               conf := d.conf }
      else none) := by
  have hfold : extract_text_positions results
      = (results.filterMap reduceDetection?).mergeSort boxKeyLe := by
    simp [extract_text_positions, foldl_reduce_eq_filterMap]
  have hperm : (extract_text_positions results).Perm
      (results.filterMap reduceDetection?) := by
    rw [hfold]
    exact List.mergeSort_perm _ _
  refine ⟨hperm, ?_, ?_, ?_⟩
  · rw [hfold]
    have hs := @List.sorted_mergeSort OCRBox boxKeyLe boxKeyLe_trans boxKeyLe_total
      (results.filterMap reduceDetection?)
    exact List.Pairwise.imp
      (fun h => by simpa [boxKeyLe, decide_eq_true_eq] using h) hs
  · intro b
    rw [hperm.mem_iff, List.mem_filterMap]
  · intro d
    simp only [reduceDetection?, pyMinZ_eq_min, pyMaxZ_eq_max]

/-- C3: the emitted overlay geometry is exactly the claimed buffered and
clamped rectangle; `left`/`top` are never negative and the box never
extends past the container's right or bottom edge. -/
theorem c3_overlay_geometry (b : OCRBox) (cw ch : ℤ) :
    (overlayGeom b cw ch).left = max 0 (b.x - 5) ∧
    (overlayGeom b cw ch).top = max 0 (b.y - 4) ∧
    (overlayGeom b cw ch).width
      = min (max 20 (b.width + 10)) (cw - (overlayGeom b cw ch).left) ∧
    (overlayGeom b cw ch).height
      = min (max 20 (b.height + 8)) (ch - (overlayGeom b cw ch).top) ∧
    0 ≤ (overlayGeom b cw ch).left ∧ 0 ≤ (overlayGeom b cw ch).top ∧
    (overlayGeom b cw ch).left + (overlayGeom b cw ch).width ≤ cw ∧
    (overlayGeom b cw ch).top + (overlayGeom b cw ch).height ≤ ch := by
  simp only [overlayGeom, pyMaxZ_eq_max, pyMinZ_eq_min]
  norm_num
  omega

/-- C4 (counterexample): the nested-shape Mapper accepts a row whose
`creative_spec.Canvas.Text_Blocks` is a string and whose `cta_buttons` is a
dict, and propagates both into the canonical schema unchanged — neither
output field is a list, contradicting the claimed invariant. -/
theorem c4_counterexample :
    (map_nested_schema
      [ ("creative_spec", JValue.obj [ ("Canvas", JValue.obj
          [ ("Text_Blocks", JValue.str "hello"),
            ("cta_buttons", JValue.obj [ ("a", JValue.int 1) ]) ]) ]) ] "p").map
      (fun m => (m.Text_Blocks.isArr, m.cta_buttons.isArr)) = .ok (false, false) := rfl

/-- C4 (amended): in the flattened-shape Mapper every list-typed field of
the produced schema is a list on every non-raising path; in the nested-shape
Mapper only `brand_colors` and `decorative_elements` are coerced to lists,
while `Text_Blocks` and `cta_buttons` are propagated as is. -/
theorem c4_list_fields (row : List (String × JValue)) (p : String) :
    (match map_nested_schema row p with
     | Except.ok m => m.brand_colors.isArr = true ∧ m.decorative_elements.isArr = true
     | Except.error _ => True) ∧
    (match map_flattened_schema row p with
     | Except.ok m => m.Text_Blocks.isArr = true ∧ m.cta_buttons.isArr = true ∧
        m.brand_colors.isArr = true ∧ m.decorative_elements.isArr = true
     | Except.error _ => True) := by
  constructor
  · unfold map_nested_schema
    split
    · next m heq =>
      split at heq <;> try (exact Except.noConfusion heq)
      split at heq <;> try (exact Except.noConfusion heq)
      split at heq <;> try (exact Except.noConfusion heq)
      injection heq with h
      subst h
      exact ⟨normalizeBrandColorsNested_isArr _, normalizeDecoNested_isArr _⟩
    · trivial
  · simp only [map_flattened_schema]
    split
    · next m heq =>
      split at heq <;> try (exact Except.noConfusion heq)
      split at heq <;> try (exact Except.noConfusion heq)
      split at heq <;> try (exact Except.noConfusion heq)
      injection heq with h
      subst h
      exact ⟨rfl, rfl, flatBrandColors_isArr _, flatDecoElements_isArr _⟩
    · trivial

/-- C5 (counterexample): post-processing the claim's example element inside
a 1000x500 creative does **not** yield the claimed style string: the code
emits the converted declarations in the order left, top, width, height,
font-size, each keeping its own trailing semicolon before the `"; "` join,
which doubles the semicolons. -/
theorem c5_counterexample :
    rewriteOverlay "<div class=\"overlay-text foo\" style=\"left: 100px; top: 50px; width: 200px; height: 40px; font-size: 20px;\">Hi</div>" 1000 500
      = "<div class=\"overlay-text foo\" style=\"left: 10.0000%;; top: 10.0000%;; width: 20.0000%;; height: 8.0000%;; font-size: 2.0000vw;\">Hi</div>" ∧
    ("left: 10.0000%;; top: 10.0000%;; width: 20.0000%;; height: 8.0000%;; font-size: 2.0000vw;" : String)
      ≠ "left: 10.0000%; width: 20.0000%; top: 10.0000%; height: 8.0000%; font-size: 2.0000vw;" :=
  ⟨by rfl, by decide⟩

/-- C5 (amended): for every original width and height and all whole-number
pixel values (arbitrary digit strings), a declaration written exactly in the
form `prop: <n>px;` — trailing semicolon included — is converted: `left` and
`width` become percentages of the original width, `top` and `height`
percentages of the original height, and `font-size` becomes `vw` (of the
width), each formatted with `"%.4f"`; the converted declarations are emitted
in the order left, top, width, height, font-size, each keeping its own
trailing semicolon, joined with `"; "` (doubling the semicolons between
them), and the remaining declarations (here `color: red`) are appended after
them, the final separator `';'` stripped by the re-split. A declaration
without the trailing semicolon is not converted and passes through verbatim;
when a property is declared twice, only the first value is converted and
every occurrence is removed. The same conversion is applied inside a
matched `overlay-text`/`cta-button` element of a document, while elements
without those classes keep their pixel styles. -/
theorem c5_pixel_conversion (dl dt dw dh df : Fin 10)
    (ls ts ws hs fs : List (Fin 10)) (ow oh : ℤ) :
    convertStyle (String.mk ("left: ".data ++ (digitStr dl ls ++
        ("px; top: ".data ++ (digitStr dt ts ++
        ("px; width: ".data ++ (digitStr dw ws ++
        ("px; height: ".data ++ (digitStr dh hs ++
        ("px; font-size: ".data ++ (digitStr df fs ++
        "px; color: red;".data))))))))))) ow oh
      = "left: " ++ (fmt4 ((digitsVal (digitStr dl ls) : ℤ) * 100) ow ++
        ("%;; top: " ++ (fmt4 ((digitsVal (digitStr dt ts) : ℤ) * 100) oh ++
        ("%;; width: " ++ (fmt4 ((digitsVal (digitStr dw ws) : ℤ) * 100) ow ++
        ("%;; height: " ++ (fmt4 ((digitsVal (digitStr dh hs) : ℤ) * 100) oh ++
        ("%;; font-size: " ++ (fmt4 ((digitsVal (digitStr df fs) : ℤ) * 100) ow ++
        "vw;; color: red")))))))))
    ∧ convertStyle (String.mk ("left: ".data ++ (digitStr dl ls ++ "px".data))) ow oh
      = String.mk ("left: ".data ++ (digitStr dl ls ++ "px".data))
    ∧ convertStyle (String.mk ("left: ".data ++ (digitStr dl ls ++
        ("px; left: ".data ++ (digitStr dt ts ++ "px;".data))))) ow oh
      = "left: " ++ (fmt4 ((digitsVal (digitStr dl ls) : ℤ) * 100) ow ++ "%;")
    ∧ rewriteOverlay (String.mk
        ("<p style=\"top: 7px;\">A</p><div class=\"overlay-text\" style=\"left: ".data ++
          (digitStr dl ls ++ ("px; font-size: ".data ++
          (digitStr df fs ++ "px;\">Hi</div>".data))))) ow oh
      = String.mk
        ("<p style=\"top: 7px;\">A</p><div class=\"overlay-text\" style=\"left: ".data ++
          ((fmt4 ((digitsVal (digitStr dl ls) : ℤ) * 100) ow).data ++ ("%;; font-size: ".data ++
          ((fmt4 ((digitsVal (digitStr df fs) : ℤ) * 100) ow).data ++ "vw;\">Hi</div>".data)))) :=
  ⟨c5_conv_main dl dt dw dh df ls ts ws hs fs ow oh,
   c5_conv_nosemi dl ls ow oh,
   c5_conv_dup dl dt ls ts ow oh,
   c5_rewrite_elem dl df ls fs ow oh⟩

/-- C6 (counterexample): a row whose `creative_spec` is a string makes the
nested-shape Mapper raise an AttributeError, which the CLI surfaces as an
unexpected error — not as the claimed InvalidData/"Data Error" kind; and it
is not the only hard failure: a non-dict `Canvas` inside a dict
`creative_spec` fails the same way instead of degrading to a default. -/
theorem c6_counterexample :
    map_nested_schema [ ("creative_spec", JValue.str "not an object") ] "p"
      = .error .attributeError ∧
    cliErrorLabel .attributeError ≠ "Data Error" ∧
    map_nested_schema [ ("creative_spec", JValue.obj [ ("Canvas", JValue.str "bad") ]) ] "p"
      = .error .attributeError :=
  ⟨rfl, by decide, rfl⟩

/-- C6 (amended): whenever `creative_spec` is present and is not a dict, the
nested-shape Mapper raises an AttributeError, which the CLI labels as an
unexpected error (exit code 1), not as a "Data Error"; and this is not the
only hard failure of the mapping layer, since a non-dict `Canvas` raises the
same way. -/
theorem c6_invalid_creative_spec :
    (∀ (row : List (String × JValue)) (p : String) (v : JValue),
      jlookup row "creative_spec" = some v → v.isObj = false →
      map_nested_schema row p = .error .attributeError) ∧
    cliErrorLabel .attributeError = "An unexpected error occurred" ∧
    map_nested_schema [ ("creative_spec", JValue.obj [ ("Canvas", JValue.str "x") ]) ] "q"
      = .error .attributeError := by
  refine ⟨?_, rfl, rfl⟩
  intro row p v h1 h2
  unfold map_nested_schema
  rw [h1]
  cases v <;> simp_all [JValue.isObj, Option.getD]

/-- C6 (witness): the amended theorem applied at a concrete row whose
`creative_spec` is the number 3. -/
theorem c6_invalid_creative_spec_witness :
    map_nested_schema [ ("creative_spec", JValue.int 3) ] "p" = .error .attributeError :=
  c6_invalid_creative_spec.1 [ ("creative_spec", JValue.int 3) ] "p" (JValue.int 3) rfl rfl

/-- C7 (counterexample): the nested-shape Mapper flattens a dict-shaped
`brand_colors` in the dict's insertion order, not in the claimed fixed
primary/accent/secondary order: a dict inserted as accent-then-primary maps
to the accent value first. -/
theorem c7_counterexample :
    (map_nested_schema
      [ ("creative_spec", JValue.obj [ ("Canvas", JValue.obj
          [ ("brand_colors", JValue.obj
              [ ("accent", JValue.str "#222"), ("primary", JValue.str "#111") ]) ]) ]) ] "p").map
      (fun m => m.brand_colors)
      = .ok (JValue.arr [ JValue.str "#222", JValue.str "#111" ]) ∧
    JValue.arr [ JValue.str "#222", JValue.str "#111" ]
      ≠ JValue.arr [ JValue.str "#111", JValue.str "#222" ] :=
  ⟨rfl, by simp⟩

/-- C7 (amended): the Approach-2 flattened Mapper flattens a dict-shaped
`brand_colors` in the fixed key order primary, accent, secondary regardless
of insertion order, while the nested-shape Mapper flattens in the dict's
insertion (encounter) order; both map `{"primary":"#111","accent":"#222"}`
to `["#111","#222"]`, and both turn any non-list, non-dict value into the
empty list. -/
theorem c7_brand_colors_flattening :
    (∀ p a : JValue, brand_colors_approach2
      [ ("brand_colors", JValue.obj [ ("accent", a), ("primary", p) ]) ]
      = JValue.arr [ p, a ]) ∧
    (∀ p a : JValue, (map_nested_schema
      [ ("creative_spec", JValue.obj [ ("Canvas", JValue.obj
          [ ("brand_colors", JValue.obj [ ("primary", p), ("accent", a) ]) ]) ]) ] "x").map
      (fun m => m.brand_colors) = .ok (JValue.arr [ p, a ])) ∧
    brand_colors_approach2
      [ ("brand_colors", JValue.obj
          [ ("primary", JValue.str "#111"), ("accent", JValue.str "#222") ]) ]
      = JValue.arr [ JValue.str "#111", JValue.str "#222" ] ∧
    (∀ n : ℤ, brand_colors_approach2 [ ("brand_colors", JValue.int n) ] = JValue.arr []) ∧
    (map_nested_schema
      [ ("creative_spec", JValue.obj [ ("Canvas", JValue.obj
          [ ("brand_colors", JValue.int 3) ]) ]) ] "x").map
      (fun m => m.brand_colors) = .ok (JValue.arr []) :=
  ⟨fun _ _ => rfl, fun _ _ => rfl, rfl, fun _ => rfl, rfl⟩

/-- C8: in the spec-modelled CTA-matching renderer, a box whose normalized
text matches a configured CTA (substring containment in either direction,
first match in CTA-list order) is rendered as an anchor styled with the
CTA's configured colors and url (default `"#"`), and an unmatched box is
rendered as the plain overlay `<div>`; in particular the CTA
`{text:"Shop Now", background:"#007bff", color:"#fff", url:"https://x"}`
matches an OCR box reading `"shop now"` and produces an anchor with
`href="https://x"`, not the plain overlay `<div>`. -/
theorem c8_cta_matching :
    (∀ (b : OCRBox) (ctas : List CtaConfig) (cw ch : ℤ) (c : CtaConfig),
      findCtaMatch b.text ctas = some c →
      renderOcrBox b ctas cw ch =
        "        <a class=\"cta-button\" href=\"" ++ c.url.getD "#" ++
        "\" style=\"" ++ overlayStyle b cw ch ++ " background-color: " ++
        c.background ++ "; color: " ++ c.color ++ ";\">" ++ b.text ++ "</a>\n") ∧
    (∀ (b : OCRBox) (ctas : List CtaConfig) (cw ch : ℤ),
      findCtaMatch b.text ctas = none →
      renderOcrBox b ctas cw ch = overlayDiv b cw ch) ∧
    (∀ (text : String) (ctas : List CtaConfig) (c : CtaConfig),
      findCtaMatch text ctas = some c → c ∈ ctas ∧ ctaMatches text c = true) ∧
    findCtaMatch "shop now"
      [ ⟨"Shop Now", "#fff", "#007bff", some "https://x"⟩ ]
      = some ⟨"Shop Now", "#fff", "#007bff", some "https://x"⟩ ∧
    containsSub
      (renderOcrBox ⟨"shop now", 0, 0, 50, 20, 1⟩
        [ ⟨"Shop Now", "#fff", "#007bff", some "https://x"⟩ ] 200 200).data
      "href=\"https://x\"".data = true ∧
    renderOcrBox ⟨"shop now", 0, 0, 50, 20, 1⟩
      [ ⟨"Shop Now", "#fff", "#007bff", some "https://x"⟩ ] 200 200
      ≠ overlayDiv ⟨"shop now", 0, 0, 50, 20, 1⟩ 200 200 := by
  refine ⟨?_, ?_, ?_, by decide, by decide, by decide⟩
  · intro b ctas cw ch c h
    simp [renderOcrBox, h]
  · intro b ctas cw ch h
    simp [renderOcrBox, h]
  · intro text ctas c h
    exact ⟨List.mem_of_find?_eq_some h, List.find?_some h⟩

/-- C8 (witness): the matching branch of the theorem applied at the spec's
concrete example. -/
theorem c8_cta_matching_witness :
    renderOcrBox ⟨"shop now", 0, 0, 50, 20, 1⟩
      [ ⟨"Shop Now", "#fff", "#007bff", some "https://x"⟩ ] 200 200
      = "        <a class=\"cta-button\" href=\"" ++ (some "https://x").getD "#" ++
        "\" style=\"" ++ overlayStyle ⟨"shop now", 0, 0, 50, 20, 1⟩ 200 200 ++
        " background-color: " ++ "#007bff" ++ "; color: " ++ "#fff" ++ ";\">" ++
        "shop now" ++ "</a>\n" :=
  c8_cta_matching.1 ⟨"shop now", 0, 0, 50, 20, 1⟩
    [ ⟨"Shop Now", "#fff", "#007bff", some "https://x"⟩ ] 200 200
    ⟨"Shop Now", "#fff", "#007bff", some "https://x"⟩ (by decide)

/-- C9: when either original dimension is non-positive, the responsiveness
post-processor returns its input HTML completely unchanged. -/
theorem c9_nonpositive_guard (html : String) (W H : ℤ) (h : W ≤ 0 ∨ H ≤ 0) :
    post_process_llm_html html W H = .ok html := by
  simp [post_process_llm_html, if_pos h]

/-- C9 (witness): the guard theorem applied at width 0. -/
theorem c9_nonpositive_guard_witness :
    post_process_llm_html "<p>hello</p>" 0 500 = .ok "<p>hello</p>" :=
  c9_nonpositive_guard "<p>hello</p>" 0 500 (Or.inl (by norm_num))

/-- C10: the Phase-4 assembler interpolates each retained box's recognized
text verbatim into the emitted overlay element — the `<div>` line is
literally an opening tag, the unescaped text, and the closing tag — so the
text's characters appear character-for-character inside the emitted
document. -/
theorem c10_text_verbatim (bgUrl : String) (boxes : List OCRBox) (cw ch : ℤ)
    (b : OCRBox) (hb : b ∈ boxes) :
    overlayDiv b cw ch =
      ("        <div class=\"overlay-text\" style=\"" ++ overlayStyle b cw ch ++ "\">")
        ++ b.text ++ "</div>\n" ∧
    List.IsInfix b.text.data
      (generate_html_with_ocr_layout bgUrl boxes cw ch).data := by
  refine ⟨rfl, List.IsInfix.trans (text_infix_overlayDiv b cw ch) ?_⟩
  refine List.IsInfix.trans (overlayDiv_infix_concatDivs boxes b cw ch hb) ?_
  exact ⟨(phase4Header bgUrl cw ch).data, "    </div>\n</body>\n</html>".data,
    by simp [generate_html_with_ocr_layout, String.data_append, List.append_assoc]⟩

/-- C10 (witness): the verbatim-interpolation theorem applied to a box whose
recognized text contains markup characters. -/
theorem c10_text_verbatim_witness :
    List.IsInfix ("<b>&\"x\"</b>" : String).data
      (generate_html_with_ocr_layout "bg.png"
        [ ⟨"<b>&\"x\"</b>", 1, 2, 30, 10, 1⟩ ] 100 100).data :=
  (c10_text_verbatim "bg.png" [ ⟨"<b>&\"x\"</b>", 1, 2, 30, 10, 1⟩ ] 100 100
    ⟨"<b>&\"x\"</b>", 1, 2, 30, 10, 1⟩ (by simp)).2

end MarketingCreatives
